import Mathlib

/-! Verification development for `script.js`.

A shallow embedding of the view-state controllers of the portfolio page
(`ThemeManager`, `NavigationManager`, `TypingAnimation`, `StatsCounter`,
`FormManager`) together with theorems about them.

Modelling conventions

* A JavaScript string is the list of its UTF-16 code units (`JSString`); `length`,
  `substring`, `trim` and regular expressions without the `u` flag all work on
  code units, so this is exact.
* DOM state that a method reads or writes is an explicit field of a state record;
  a method becomes a function from state to state.
* Timers are not run by a clock: a timer callback is a function that is applied
  once per firing.
* Numbers that enter arithmetic with fractions (the statistics counter) are binary64
  values: the rational they denote, with every operation rounded to nearest, ties to
  even. Offsets, lengths and indices are integers, on which the operations used are
  exact.
-/

/-! ## JavaScript strings -/

/-- A JavaScript string: the list of its UTF-16 code units (each below 65536). -/
abbrev JSString := List Nat

/-- UTF-16 encoding of one Unicode scalar value. -/
def utf16 (c : Char) : List Nat :=
  if c.toNat < 0x10000 then [c.toNat]
  else [0xD800 + (c.toNat - 0x10000) / 0x400, 0xDC00 + (c.toNat - 0x10000) % 0x400]

/-- The JavaScript string denoted by a source literal. -/
def js (s : String) : JSString := s.toList.flatMap utf16

/-- ECMAScript `WhiteSpace` and `LineTerminator` code units: the set stripped by
`String.prototype.trim` and matched by the regular-expression class `\s`. -/
def isJSWhitespace (c : Nat) : Bool :=
  c == 0x09 || c == 0x0A || c == 0x0B || c == 0x0C || c == 0x0D || c == 0x20 ||
  c == 0xA0 || c == 0x1680 || (0x2000 ≤ c && c ≤ 0x200A) ||
  c == 0x2028 || c == 0x2029 || c == 0x202F || c == 0x205F || c == 0x3000 || c == 0xFEFF

/-- The method `String.prototype.trim`: strips leading and trailing white space. -/
def trim (s : JSString) : JSString :=
  ((s.dropWhile isJSWhitespace).reverse.dropWhile isJSWhitespace).reverse

/-- The method `String.prototype.substring(start, end)` with the clamping of
negative arguments to 0 and of large arguments to the length. -/
def substring (s : JSString) (start stop : Int) : JSString :=
  let a := min start.toNat s.length
  let b := min stop.toNat s.length
  (s.drop (min a b)).take (max a b - min a b)

/-! ## Regular expressions (enough for `emailRegex`) -/

/-- Regular expressions over code units; `cls p` is a character class. -/
inductive RE where
  | none : RE
  | eps : RE
  | cls (p : Nat → Bool) : RE
  | seq (r s : RE) : RE
  | alt (r s : RE) : RE
  | star (r : RE) : RE

/-- Whether the expression matches the empty string. -/
def RE.nullable : RE → Bool
  | .none => false
  | .eps => true
  | .cls _ => false
  | .seq r s => r.nullable && s.nullable
  | .alt r s => r.nullable || s.nullable
  | .star _ => true

/-- Brzozowski derivative of an expression by one code unit. -/
def RE.deriv : RE → Nat → RE
  | .none, _ => .none
  | .eps, _ => .none
  | .cls p, c => if p c then .eps else .none
  | .seq r s, c =>
      if r.nullable then .alt (.seq (r.deriv c) s) (s.deriv c) else .seq (r.deriv c) s
  | .alt r s, c => .alt (r.deriv c) (s.deriv c)
  | .star r, c => .seq (r.deriv c) (.star r)

/-- Whole-string match (`^…$` without the `m` flag). -/
def RE.fullMatch : RE → JSString → Bool
  | r, [] => r.nullable
  | r, c :: cs => (r.deriv c).fullMatch cs

/-- The quantifier `+`. -/
def RE.plus (r : RE) : RE := .seq r (.star r)

/-- A literal code unit. -/
def RE.lit (c : Nat) : RE := .cls (fun d => d == c)

/-- The class `[^\s@]`. -/
def notSpaceAt (c : Nat) : Bool := !(isJSWhitespace c) && !(c == 0x40)

/-- The body of `/^[^\s@]+@[^\s@]+\.[^\s@]+$/`. -/
def emailRegex : RE :=
  .seq (RE.plus (.cls notSpaceAt))
    (.seq (RE.lit 0x40)
      (.seq (RE.plus (.cls notSpaceAt))
        (.seq (RE.lit 0x2E) (RE.plus (.cls notSpaceAt)))))

/-- The part of an address before its first `@`. -/
def localPart (s : JSString) : JSString := s.takeWhile (fun c => c != 0x40)

/-- The part of an address after its first `@`. -/
def domainPart (s : JSString) : JSString := (s.dropWhile (fun c => c != 0x40)).drop 1

/-! ## The contact form (`FormManager`) -/

/-- The four named fields of the contact form. -/
inductive FormField where
  | name | email | subject | message
  deriving DecidableEq, Repr

/-- The record `Object.fromEntries(new FormData(contactForm))`. -/
structure FormData where
  name : JSString
  email : JSString
  subject : JSString
  message : JSString
  deriving DecidableEq, Repr

/-- Observable actions of the form controller, in the order they happen. -/
inductive Effect where
  | preventDefault
  | fieldError (field : FormField) (message : JSString)
  | loading (busy : Bool)
  | navigate (url : JSString)
  | notify (type : JSString) (message : JSString)
  | reset
  deriving DecidableEq, Repr

/-- A `.notification` element attached to `document.body`; `id` is the identity
of the DOM node, `type` the second class name, `opacity` and `transform` the inline
styles written by the timers (`none` while unset). -/
structure Notification where
  id : Nat
  type : JSString
  message : JSString
  opacity : Option JSString
  transform : Option JSString
  deriving DecidableEq, Repr

/-- The three `setTimeout` callbacks of `showNotification`, each closed over the
notification element it was created for. -/
inductive Timer where
  | autoRemove (id : Nat)
  | finalRemove (id : Nat)
  | animateIn (id : Nat)
  deriving DecidableEq, Repr

/-- The notification element a timer callback is closed over. -/
def Timer.id : Timer → Nat
  | Timer.autoRemove id => id
  | Timer.finalRemove id => id
  | Timer.animateIn id => id

/-- The part of the page the form controller reads and writes. -/
structure Page where
  /-- current values of the four inputs -/
  values : FormData
  /-- default values restored by `contactForm.reset()` -/
  defaults : FormData
  /-- `textContent` of each field's `.form-error` element -/
  errorText : FormField → JSString
  /-- `style.borderColor` of each field -/
  borderColor : FormField → JSString
  /-- whether `.btn-submit` carries the class `loading` -/
  btnLoading : Bool
  /-- the `disabled` property of `.btn-submit` -/
  btnDisabled : Bool
  /-- `window.location.href` -/
  href : JSString
  /-- the `.notification` elements in document order -/
  notifications : List Notification
  /-- identity given to the next created element -/
  nextId : Nat
  /-- pending `setTimeout` callbacks -/
  timers : List Timer
  /-- whether the `#notification-styles` element exists -/
  notificationStyles : Bool
  /-- log of observable actions -/
  trace : List Effect

/-- Appends an action to the log. -/
def Page.log (p : Page) (e : Effect) : Page := { p with trace := p.trace ++ [e] }

/-- The method `isValidEmail`: `emailRegex.test(email)`. -/
def FormManager.isValidEmail (email : JSString) : Bool := emailRegex.fullMatch email

/-- The method `showFieldError`. -/
def FormManager.showFieldError (fieldName : FormField) (message : JSString) (p : Page) : Page :=
  { p with
    borderColor := fun f => if f = fieldName then js "var(--error-color)" else p.borderColor f
    errorText := fun f => if f = fieldName then message else p.errorText f
    trace := p.trace ++ [Effect.fieldError fieldName message] }

/-- The method `clearError`. -/
def FormManager.clearError (field : FormField) (p : Page) : Page :=
  { p with
    borderColor := fun f => if f = field then js "var(--border-color)" else p.borderColor f
    errorText := fun f => if f = field then [] else p.errorText f }

/-- The method `validateForm`: the returned flag and the page after the calls of
`showFieldError`. A string is falsy exactly when it is empty. -/
def FormManager.validateForm (data : FormData) (p : Page) : Bool × Page :=
  let isValid := true
  -- Name validation
  let (isValid, p) :=
    if data.name.isEmpty || decide ((trim data.name).length < 2) then
      (false, FormManager.showFieldError .name
        (js "Please enter a valid name (at least 2 characters)") p)
    else (isValid, p)
  -- Email validation
  let (isValid, p) :=
    if data.email.isEmpty || !FormManager.isValidEmail data.email then
      (false, FormManager.showFieldError .email (js "Please enter a valid email address") p)
    else (isValid, p)
  -- Subject validation
  let (isValid, p) :=
    if data.subject.isEmpty || decide ((trim data.subject).length < 3) then
      (false, FormManager.showFieldError .subject
        (js "Please enter a subject (at least 3 characters)") p)
    else (isValid, p)
  -- Message validation
  let (isValid, p) :=
    if data.message.isEmpty || decide ((trim data.message).length < 10) then
      (false, FormManager.showFieldError .message
        (js "Please enter a message (at least 10 characters)") p)
    else (isValid, p)
  (isValid, p)

/-- The `value` of the input element of a field. -/
def FormData.get (d : FormData) : FormField → JSString
  | .name => d.name
  | .email => d.email
  | .subject => d.subject
  | .message => d.message

/-- The method `validateField`, run on the blur event of a field's input: the
returned flag and the page after `showFieldError` or `clearError`. The `switch` is on
`field.name`, which is the field itself here. -/
def FormManager.validateField (field : FormField) (p : Page) : Bool × Page :=
  let value := trim (p.values.get field)
  match field with
  | .name =>
    if value.length < 2 then
      (false, FormManager.showFieldError .name (js "Name must be at least 2 characters") p)
    else (true, FormManager.clearError field p)
  | .email =>
    if !FormManager.isValidEmail value then
      (false, FormManager.showFieldError .email (js "Please enter a valid email address") p)
    else (true, FormManager.clearError field p)
  | .subject =>
    if value.length < 3 then
      (false, FormManager.showFieldError .subject (js "Subject must be at least 3 characters") p)
    else (true, FormManager.clearError field p)
  | .message =>
    if value.length < 10 then
      (false, FormManager.showFieldError .message (js "Message must be at least 10 characters") p)
    else (true, FormManager.clearError field p)

/-- The method `setLoadingState`. -/
def FormManager.setLoadingState (loading : Bool) (p : Page) : Page :=
  if loading then
    { p with btnLoading := true, btnDisabled := true, trace := p.trace ++ [Effect.loading true] }
  else
    { p with btnLoading := false, btnDisabled := false, trace := p.trace ++ [Effect.loading false] }

/-- The method `addNotificationStyles`: inserts the style element once. -/
def FormManager.addNotificationStyles (p : Page) : Page :=
  if p.notificationStyles then p else { p with notificationStyles := true }

/-- The method `showNotification`: removes the first existing `.notification`
(`document.querySelector`), appends a new element to the body and schedules its
auto-remove (5000 ms) and animate-in (100 ms) callbacks. -/
def FormManager.showNotification (message type : JSString) (p : Page) : Page :=
  -- Remove existing notifications
  let p := match p.notifications with
    | [] => p
    | _ :: others => { p with notifications := others }
  -- Create notification
  let notification : Notification :=
    { id := p.nextId, type := type, message := message, opacity := none, transform := none }
  let p := { p with nextId := p.nextId + 1 }
  -- Add styles
  let p := FormManager.addNotificationStyles p
  -- Add to page
  let p := { p with notifications := p.notifications ++ [notification] }
  -- Auto remove, animate in
  { p with
    timers := p.timers ++ [Timer.autoRemove notification.id, Timer.animateIn notification.id]
    trace := p.trace ++ [Effect.notify type message] }

/-- The set `uriUnescaped` of ECMA-262: characters `encodeURIComponent` copies. -/
def uriUnescaped (c : Nat) : Bool :=
  (0x41 ≤ c && c ≤ 0x5A) || (0x61 ≤ c && c ≤ 0x7A) || (0x30 ≤ c && c ≤ 0x39) ||
  c == 0x2D || c == 0x5F || c == 0x2E || c == 0x21 || c == 0x7E ||
  c == 0x2A || c == 0x27 || c == 0x28 || c == 0x29

/-- Upper-case hexadecimal digit. -/
def hexDigit (n : Nat) : Nat := if n < 10 then 0x30 + n else 0x41 + (n - 10)

/-- The escape `%XY` of one octet. -/
def pctOctet (b : Nat) : JSString := [0x25, hexDigit (b / 16), hexDigit (b % 16)]

/-- UTF-8 encoding of a code point. -/
def utf8 (cp : Nat) : List Nat :=
  if cp < 0x80 then [cp]
  else if cp < 0x800 then [0xC0 + cp / 0x40, 0x80 + cp % 0x40]
  else if cp < 0x10000 then [0xE0 + cp / 0x1000, 0x80 + cp / 0x40 % 0x40, 0x80 + cp % 0x40]
  else [0xF0 + cp / 0x40000, 0x80 + cp / 0x1000 % 0x40, 0x80 + cp / 0x40 % 0x40,
        0x80 + cp % 0x40]

/-- The escape of a code point: its UTF-8 octets, each as `%XY`. -/
def pctEncode (cp : Nat) : JSString := (utf8 cp).flatMap pctOctet

/-- The built-in `encodeURIComponent` (ECMA-262 `Encode`); `none` stands for the
`URIError` thrown on an unpaired surrogate. -/
def encodeURIComponent : JSString → Option JSString
  | [] => some []
  | c :: rest =>
    if uriUnescaped c then (encodeURIComponent rest).map (c :: ·)
    else if 0xDC00 ≤ c ∧ c ≤ 0xDFFF then none
    else if 0xD800 ≤ c ∧ c ≤ 0xDBFF then
      match rest with
      | [] => none
      | d :: rest2 =>
        if 0xDC00 ≤ d ∧ d ≤ 0xDFFF then
          (encodeURIComponent rest2).map
            (pctEncode ((c - 0xD800) * 0x400 + (d - 0xDC00) + 0x10000) ++ ·)
        else none
    else (encodeURIComponent rest).map (pctEncode c ++ ·)

/-- The template literal building `emailBody` in `handleSubmit`. -/
def FormManager.emailBody (data : FormData) : JSString :=
  js "Name: " ++ data.name ++ js "\nEmail: " ++ data.email ++ js "\nSubject: " ++ data.subject
    ++ js "\n\nMessage:\n" ++ data.message

/-- The method `handleSubmit`, run on the submit event of the contact form. The
method has no `await`, so it runs to completion within the event. A `URIError`
from `encodeURIComponent` is the only exception the `try` block can meet. -/
def FormManager.handleSubmit (p : Page) : Page :=
  let p := p.log Effect.preventDefault
  let data := p.values
  -- Validate all fields
  let (isValid, p) := FormManager.validateForm data p
  if !isValid then p else
  -- Show loading state
  let p := FormManager.setLoadingState true p
  let emailBody := FormManager.emailBody data
  let p :=
    match encodeURIComponent data.subject, encodeURIComponent emailBody with
    | some subject, some body =>
      let mailtoLink := js "mailto:ayahady052@gmail.com?subject=" ++ subject ++ js "&body=" ++ body
      -- Open email client
      let p := { p with href := mailtoLink, trace := p.trace ++ [Effect.navigate mailtoLink] }
      let p := FormManager.showNotification
        (js "Email client opened! Please send the message from your email app.") (js "success") p
      { p with values := p.defaults, trace := p.trace ++ [Effect.reset] }
    | _, _ =>
      FormManager.showNotification
        (js "Sorry, there was an error. Please try sending an email directly to ayahady052@gmail.com")
        (js "error") p
  FormManager.setLoadingState false p

/-- A freshly loaded page holding the given field values. -/
def Page.fresh (values : FormData) : Page :=
  { values := values
    defaults := ⟨[], [], [], []⟩
    errorText := fun _ => []
    borderColor := fun _ => []
    btnLoading := false
    btnDisabled := false
    href := js "https://example.org/"
    notifications := []
    nextId := 0
    timers := []
    notificationStyles := false
    trace := [] }

/-- The error message `validateForm` shows on each field. -/
def FormManager.formMessage : FormField → JSString
  | .name => js "Please enter a valid name (at least 2 characters)"
  | .email => js "Please enter a valid email address"
  | .subject => js "Please enter a subject (at least 3 characters)"
  | .message => js "Please enter a message (at least 10 characters)"

/-- The validation table of the specification: the rule each field must meet. -/
def fieldRule (data : FormData) : FormField → Bool
  | .name => decide (2 ≤ (trim data.name).length)
  | .email => FormManager.isValidEmail data.email
  | .subject => decide (3 ≤ (trim data.subject).length)
  | .message => decide (10 ≤ (trim data.message).length)

/-- One input event of the notification life cycle: a call of `showNotification`,
a click on the close control of the notification element `id`, or the firing of a
pending timer. -/
inductive PageEvent where
  | showNotification (message type : JSString)
  | close (id : Nat)
  | fire (t : Timer)
  deriving DecidableEq, Repr

/-- The call `notification.remove()` on the element `id`; no effect when the element
is not attached. -/
def Page.removeNotification (id : Nat) (p : Page) : Page :=
  { p with notifications := p.notifications.filter (fun n => n.id != id) }

/-- Writes the inline `opacity` and `transform` of the element `id`, when attached. -/
def Page.setNotificationStyle (id : Nat) (opacity transform : JSString) (p : Page) : Page :=
  { p with notifications := p.notifications.map (fun n =>
      if n.id = id then { n with opacity := some opacity, transform := some transform } else n) }

/-- The firing of a pending timer: the callback runs once and the timer is spent.
`autoRemove` tests `notification.parentNode` and, when attached, fades the element
out and schedules `finalRemove` (300 ms); `finalRemove` removes the element;
`animateIn` fades it in. -/
def Page.fireTimer (t : Timer) (p : Page) : Page :=
  if t ∈ p.timers then
    let p := { p with timers := p.timers.erase t }
    match t with
    | Timer.autoRemove id =>
      if p.notifications.any (fun n => n.id == id) then
        let p := p.setNotificationStyle id (js "0") (js "translateX(100%)")
        { p with timers := p.timers ++ [Timer.finalRemove id] }
      else p
    | Timer.finalRemove id => p.removeNotification id
    | Timer.animateIn id => p.setNotificationStyle id (js "1") (js "translateX(0)")
  else p

/-- The effect of one event on the page. -/
def Page.step (p : Page) : PageEvent → Page
  | PageEvent.showNotification message type => FormManager.showNotification message type p
  | PageEvent.close id => p.removeNotification id
  | PageEvent.fire t => p.fireTimer t

/-- The page after a sequence of events. -/
def Page.run (p : Page) (events : List PageEvent) : Page := events.foldl Page.step p

/-- The invariant of the notification life cycle: at most one notification is
attached, and every attached notification and every pending timer belongs to an
element created earlier. -/
def Page.NotificationInv (p : Page) : Prop :=
  p.notifications.length ≤ 1 ∧ (∀ n ∈ p.notifications, n.id < p.nextId) ∧
    (∀ t ∈ p.timers, t.id < p.nextId)

/-! ## Theme (`ThemeManager`) -/

/-- The state of a `ThemeManager` with the two places it writes: the entry of
`localStorage` under the key `theme` and the `data-theme` attribute of the root
element (`none` while absent); `iconClass` is the class of the toggle's icon. Writes
to `localStorage` are taken to succeed. -/
structure ThemeManager where
  currentTheme : JSString
  storedTheme : Option JSString
  dataTheme : Option JSString
  iconClass : JSString
  deriving DecidableEq, Repr

/-- The method `setTheme`. -/
def ThemeManager.setTheme (theme : JSString) (s : ThemeManager) : ThemeManager :=
  { s with
    dataTheme := some theme
    storedTheme := some theme
    currentTheme := theme
    iconClass := if theme = js "dark" then js "fas fa-sun" else js "fas fa-moon" }

/-- The method `toggleTheme`. -/
def ThemeManager.toggleTheme (s : ThemeManager) : ThemeManager :=
  let newTheme := if s.currentTheme = js "light" then js "dark" else js "light"
  s.setTheme newTheme

/-- The constructor followed by `init`: `localStorage.getItem('theme') || 'light'`
is applied with `setTheme`. -/
def ThemeManager.constructor (storedTheme dataTheme : Option JSString) (iconClass : JSString) :
    ThemeManager :=
  let currentTheme := match storedTheme with
    | some t => if t.isEmpty then js "light" else t
    | none => js "light"
  ThemeManager.setTheme currentTheme
    { currentTheme := currentTheme, storedTheme := storedTheme, dataTheme := dataTheme,
      iconClass := iconClass }

/-! ## Navigation (`NavigationManager.updateActiveLink`) -/

/-- A `section` element: its `id` attribute (`none` when `getAttribute` gives null),
`offsetTop` and `clientHeight`. -/
structure PageSection where
  id : Option JSString
  offsetTop : Int
  clientHeight : Int
  deriving DecidableEq, Repr

/-- A `.nav-link` element: its `href` attribute and whether it carries the class
`active`. -/
structure NavLink where
  href : JSString
  active : Bool
  deriving DecidableEq, Repr

/-- The test of `updateActiveLink` on one section, with `sectionTop` bound to
`section.offsetTop - 100` as in the source. -/
def NavigationManager.sectionMatches (pageYOffset : Int) (s : PageSection) : Bool :=
  let sectionTop := s.offsetTop - 100
  let sectionHeight := s.clientHeight
  decide (pageYOffset ≥ sectionTop) && decide (pageYOffset < sectionTop + sectionHeight)

/-- The first loop of `updateActiveLink`: the final value of `current`, which starts
as the empty string and is overwritten by each matching section's `id`. -/
def NavigationManager.current (sections : List PageSection) (pageYOffset : Int) :
    Option JSString :=
  sections.foldl
    (fun current s => if NavigationManager.sectionMatches pageYOffset s then s.id else current)
    (some [])

/-- The method `updateActiveLink`: every link loses the class `active`, and gets it
again when `href.substring(1) === current`. -/
def NavigationManager.updateActiveLink (sections : List PageSection) (pageYOffset : Int)
    (navLinks : List NavLink) : List NavLink :=
  let current := NavigationManager.current sections pageYOffset
  navLinks.map (fun link =>
    { link with active := decide (some (substring link.href 1 link.href.length) = current) })

/-- The matching interval as the specification words it: `[top - 100, top + height)`. -/
def specInterval (pageYOffset : Int) (s : PageSection) : Bool :=
  decide (s.offsetTop - 100 ≤ pageYOffset) && decide (pageYOffset < s.offsetTop + s.clientHeight)

/-! ## Typing animation (`TypingAnimation`) -/

/-- The fields of a `TypingAnimation` together with the `textContent` of its element
and the delay of the `setTimeout` pending after the last call of `type`. -/
structure TypingAnimation where
  texts : List JSString
  speed : Nat
  deleteSpeed : Nat
  delay : Nat
  textIndex : Nat
  charIndex : Int
  isDeleting : Bool
  textContent : JSString
  timeout : Nat
  deriving DecidableEq, Repr

/-- The field assignments of the constructor, before `init` calls `type`. -/
def TypingAnimation.initial (texts : List JSString) (speed deleteSpeed delay : Nat) :
    TypingAnimation :=
  { texts := texts, speed := speed, deleteSpeed := deleteSpeed, delay := delay,
    textIndex := 0, charIndex := 0, isDeleting := false, textContent := [], timeout := 0 }

/-- The method `type`, one tick of the animation; `none` stands for the `TypeError`
raised when `texts[textIndex]` is undefined. -/
def TypingAnimation.type (s : TypingAnimation) : Option TypingAnimation :=
  match s.texts[s.textIndex]? with
  | none => none
  | some currentText =>
    let (textContent, charIndex) :=
      if s.isDeleting then (substring currentText 0 (s.charIndex - 1), s.charIndex - 1)
      else (substring currentText 0 (s.charIndex + 1), s.charIndex + 1)
    let typeSpeed := if s.isDeleting then s.deleteSpeed else s.speed
    if !s.isDeleting && decide (charIndex = (currentText.length : Int)) then
      some { s with textContent := textContent, charIndex := charIndex,
                    timeout := s.delay, isDeleting := true }
    else if s.isDeleting && decide (charIndex = 0) then
      some { s with textContent := textContent, charIndex := charIndex, timeout := typeSpeed,
                    isDeleting := false, textIndex := (s.textIndex + 1) % s.texts.length }
    else
      some { s with textContent := textContent, charIndex := charIndex, timeout := typeSpeed }

/-- The state after the given number of calls of `type`. -/
def TypingAnimation.ticks : Nat → TypingAnimation → Option TypingAnimation
  | 0, s => some s
  | n + 1, s => (TypingAnimation.type s).bind (TypingAnimation.ticks n)

/-! ## Numbers (binary64)

A JavaScript number that is finite is the rational it denotes. An arithmetic
operation is the exact operation followed by rounding to the nearest binary64 value,
ties to even. The exponent is not bounded: none of the values below is subnormal,
and a sum that overflows to `+Infinity` in binary64 is rounded here to a value of at
least `2 ^ 1024`, which compares with a finite number the way `+Infinity` does. -/

/-- Rounding of a rational to the nearest integer, ties to the even one. -/
def roundHalfEven (q : ℚ) : ℤ :=
  let f := ⌊q⌋
  let r := q - f
  if r < 1 / 2 then f
  else if 1 / 2 < r then f + 1
  else if f % 2 = 0 then f else f + 1

/-- The binary64 value nearest to a real number (round to nearest, ties to even):
53 significant bits, the last of weight `2 ^ (e - 52)` for `2 ^ e ≤ |x| < 2 ^ (e + 1)`. -/
def round64 (x : ℚ) : ℚ :=
  if x = 0 then 0
  else
    let e := Int.log 2 |x|
    let ulp : ℚ := (2 : ℚ) ^ (e - 52)
    (roundHalfEven (x / ulp) : ℚ) * ulp

/-- The operator `+` on numbers. -/
def fadd (x y : ℚ) : ℚ := round64 (x + y)

/-- The operator `/` on numbers (non-zero divisor). -/
def fdiv (x y : ℚ) : ℚ := round64 (x / y)

/-! ## Statistics counter (`StatsCounter.animateCounter`) -/

/-- The state of one `animateCounter` run: the local `current`, whether
`clearInterval(timer)` has been called, and the successive values written to
`element.textContent`. -/
structure CounterState where
  current : ℚ
  cleared : Bool
  displayed : List Int

/-- The step of `animateCounter`: `target / (duration / 16)` with `duration = 2000`. -/
def StatsCounter.step (target : Int) : ℚ :=
  let duration : ℚ := 2000
  fdiv (target : ℚ) (fdiv duration 16)

/-- One firing of the interval callback of `animateCounter`, closed over `target`
and `step`; a cleared interval does not fire. `Math.floor` and `>=` are exact. -/
def StatsCounter.tick (target : Int) (s : CounterState) : CounterState :=
  if s.cleared then s else
  let step := StatsCounter.step target
  let current := fadd s.current step
  if current ≥ (target : ℚ) then
    { current := target, cleared := true, displayed := s.displayed ++ [⌊(target : ℚ)⌋] }
  else
    { current := current, cleared := false, displayed := s.displayed ++ [⌊current⌋] }

/-- The method `animateCounter` observed after the given number of 16 ms periods;
`target` is the integer `parseInt` returned. -/
def StatsCounter.animateCounter (target : Int) (periods : Nat) : CounterState :=
  (StatsCounter.tick target)^[periods] { current := 0, cleared := false, displayed := [] }

/-! ## Mobile menu and its listeners (`NavigationManager`, keydown handler) -/

/-- The part of the page the mobile menu reads and writes: whether `hamburger` and
`navMenu` carry the class `active`, `document.body.style.overflow` (the page scroll
lock), the number of click listeners registered on the hamburger (each one is
`() => this.toggleMobileMenu()`), the number of click listeners registered on each
`.nav-link` (each one is `() => this.closeMobileMenu()`), the number of scroll
listeners on the window, and the number of calls of `toggleMobileMenu` so far. -/
structure MenuPage where
  hamburgerActive : Bool
  navMenuActive : Bool
  bodyOverflow : JSString
  hamburgerClickListeners : Nat
  navLinkClickListeners : Nat
  scrollListeners : Nat
  toggleCalls : Nat
  deriving DecidableEq, Repr

/-- The method `toggleMobileMenu`. -/
def NavigationManager.toggleMobileMenu (s : MenuPage) : MenuPage :=
  let s := { s with toggleCalls := s.toggleCalls + 1 }
  let s := { s with hamburgerActive := !s.hamburgerActive }
  let s := { s with navMenuActive := !s.navMenuActive }
  { s with bodyOverflow := if s.navMenuActive then js "hidden" else [] }

/-- The method `closeMobileMenu`. -/
def NavigationManager.closeMobileMenu (s : MenuPage) : MenuPage :=
  { s with hamburgerActive := false, navMenuActive := false, bodyOverflow := [] }

/-- The method `init`: every call adds one click listener to the hamburger, one to
each nav link and two scroll listeners. The listeners of `initSmoothScrolling` only
call `window.scrollTo` and are left out. -/
def NavigationManager.init (s : MenuPage) : MenuPage :=
  { s with
    hamburgerClickListeners := s.hamburgerClickListeners + 1
    navLinkClickListeners := s.navLinkClickListeners + 1
    scrollListeners := s.scrollListeners + 2 }

/-- The constructor of `NavigationManager`: it calls `init`. -/
def NavigationManager.constructor (s : MenuPage) : MenuPage := NavigationManager.init s

/-- The method `LoadingManager.init`: the scroll lock of the loading screen. -/
def LoadingManager.init (s : MenuPage) : MenuPage := { s with bodyOverflow := js "hidden" }

/-- The timeout callback of `LoadingManager`, one second after `load`. -/
def LoadingManager.loadTimeout (s : MenuPage) : MenuPage := { s with bodyOverflow := [] }

/-- The `DOMContentLoaded` handler as far as the menu is concerned:
`new LoadingManager()` and then `new NavigationManager()`. -/
def domContentLoaded (markup : MenuPage) : MenuPage :=
  NavigationManager.constructor (LoadingManager.init markup)

/-- The `keydown` handler of the document: Escape builds a new `NavigationManager`
and closes the menu. (The Enter branch clicks a social link and does not touch the
menu.) -/
def keydownHandler (key : JSString) (s : MenuPage) : MenuPage :=
  if key = js "Escape" then
    let nav := NavigationManager.constructor s
    NavigationManager.closeMobileMenu nav
  else s

/-- A click on the hamburger: every registered listener runs `toggleMobileMenu`. -/
def hamburgerClick (s : MenuPage) : MenuPage :=
  NavigationManager.toggleMobileMenu^[s.hamburgerClickListeners] s

/-- A click on a nav link: every registered listener runs `closeMobileMenu`. -/
def navLinkClick (s : MenuPage) : MenuPage :=
  NavigationManager.closeMobileMenu^[s.navLinkClickListeners] s

/-- The events that reach the menu after `DOMContentLoaded`. -/
inductive MenuEvent where
  | keydown (key : JSString)
  | hamburgerClick
  | navLinkClick
  | loadTimeout
  deriving DecidableEq, Repr

/-- The effect of one event on the menu. -/
def MenuPage.step (s : MenuPage) : MenuEvent → MenuPage
  | MenuEvent.keydown key => keydownHandler key s
  | MenuEvent.hamburgerClick => hamburgerClick s
  | MenuEvent.navLinkClick => navLinkClick s
  | MenuEvent.loadTimeout => LoadingManager.loadTimeout s

/-- The menu after a sequence of events. -/
def MenuPage.run (s : MenuPage) (events : List MenuEvent) : MenuPage :=
  events.foldl MenuPage.step s

/-- The number of Escape key presses in a sequence of events. -/
def escapePresses (events : List MenuEvent) : Nat :=
  events.countP (fun e => decide (e = MenuEvent.keydown (js "Escape")))

/-! ## Theorems -/

theorem falsy_or_short (s : JSString) (k : Nat) (hk : 0 < k) :
    (s.isEmpty || decide ((trim s).length < k)) = !decide (k ≤ (trim s).length) := by
  cases s with
  | nil =>
    have h : (trim ([] : JSString)).length = 0 := by decide
    simp [h]
    omega
  | cons c cs => simp only [List.isEmpty_cons, Bool.false_or, ← decide_not, Nat.not_le]

theorem falsy_or_invalid (s : JSString) :
    (s.isEmpty || !FormManager.isValidEmail s) = !FormManager.isValidEmail s := by
  cases s with
  | nil =>
    have h : FormManager.isValidEmail [] = false := by decide
    simp [h]
  | cons c cs => simp

theorem validateForm_eq (data : FormData) (p : Page) :
    FormManager.validateForm data p =
      (fieldRule data .name && fieldRule data .email && fieldRule data .subject
          && fieldRule data .message,
        { p with
          errorText := fun f => if fieldRule data f then p.errorText f
            else FormManager.formMessage f
          borderColor := fun f => if fieldRule data f then p.borderColor f
            else js "var(--error-color)"
          trace := p.trace ++
            (([FormField.name, .email, .subject, .message].filter
              (fun f => !fieldRule data f)).map
              (fun f => Effect.fieldError f (FormManager.formMessage f))) }) := by
  unfold FormManager.validateForm
  simp only [falsy_or_short _ 2 (by decide), falsy_or_short _ 3 (by decide),
    falsy_or_short _ 10 (by decide), falsy_or_invalid]
  by_cases h1 : fieldRule data .name = true <;> by_cases h2 : fieldRule data .email = true <;>
    by_cases h3 : fieldRule data .subject = true <;>
    by_cases h4 : fieldRule data .message = true <;>
    simp only [fieldRule] at h1 h2 h3 h4 <;>
    simp [fieldRule, h1, h2, h3, h4, FormManager.showFieldError, FormManager.formMessage] <;>
    first
    | (refine ⟨?_, ?_⟩ <;> funext f <;> cases f <;> simp)
    | (cases p; simp only [Page.mk.injEq, true_and, and_true]
       refine ⟨?_, ?_⟩ <;> funext f <;> cases f <;> simp)

/-- C1: `validateForm` returns true exactly when the four rules hold (trimmed name of
length at least 2, email matching the pattern, trimmed subject of length at least 3,
trimmed message of length at least 10), and it raises an inline error on exactly the
fields whose rule fails, leaving the other fields' error text as it was. On
`{name:"A", email:"bad", subject:"Hi", message:"short"}` it returns false and raises
exactly four field errors. -/
theorem validateForm_true_iff_rules_and_errors (data : FormData) (p : Page) :
    ((FormManager.validateForm data p).1 = true ↔
      (2 ≤ (trim data.name).length ∧ FormManager.isValidEmail data.email = true ∧
        3 ≤ (trim data.subject).length ∧ 10 ≤ (trim data.message).length)) ∧
    (FormManager.validateForm data p).2.trace = p.trace ++
      ([FormField.name, .email, .subject, .message].filter (fun f => !fieldRule data f)).map
        (fun f => Effect.fieldError f (FormManager.formMessage f)) ∧
    (∀ f, (FormManager.validateForm data p).2.errorText f =
      if fieldRule data f then p.errorText f else FormManager.formMessage f) ∧
    (FormManager.validateForm ⟨js "A", js "bad", js "Hi", js "short"⟩ p).1 = false ∧
    (FormManager.validateForm ⟨js "A", js "bad", js "Hi", js "short"⟩ p).2.trace = p.trace ++
      [Effect.fieldError .name (js "Please enter a valid name (at least 2 characters)"),
       Effect.fieldError .email (js "Please enter a valid email address"),
       Effect.fieldError .subject (js "Please enter a subject (at least 3 characters)"),
       Effect.fieldError .message (js "Please enter a message (at least 10 characters)")] := by
  have e1 : fieldRule ⟨js "A", js "bad", js "Hi", js "short"⟩ .name = false := by decide
  have e2 : fieldRule ⟨js "A", js "bad", js "Hi", js "short"⟩ .email = false := by decide
  have e3 : fieldRule ⟨js "A", js "bad", js "Hi", js "short"⟩ .subject = false := by decide
  have e4 : fieldRule ⟨js "A", js "bad", js "Hi", js "short"⟩ .message = false := by decide
  refine ⟨?_, ?_, ?_, ?_, ?_⟩
  · rw [validateForm_eq]
    simp [fieldRule, and_assoc]
  · rw [validateForm_eq]
  · intro f
    rw [validateForm_eq]
  · rw [validateForm_eq]
    simp [e1]
  · rw [validateForm_eq]
    simp [e1, e2, e3, e4, FormManager.formMessage]

/-- C2: when at least one validation rule fails, `handleSubmit` stops after
validation: the location, the submit button, the notifications, the timers and the
field values are as before, and the only actions logged are `preventDefault` and
the field errors (no busy state, no navigation, no notification, no reset). -/
theorem handleSubmit_invalid_aborts (p : Page)
    (h : ¬ (2 ≤ (trim p.values.name).length ∧ FormManager.isValidEmail p.values.email = true ∧
        3 ≤ (trim p.values.subject).length ∧ 10 ≤ (trim p.values.message).length)) :
    (FormManager.handleSubmit p).href = p.href ∧
    (FormManager.handleSubmit p).btnLoading = p.btnLoading ∧
    (FormManager.handleSubmit p).btnDisabled = p.btnDisabled ∧
    (FormManager.handleSubmit p).notifications = p.notifications ∧
    (FormManager.handleSubmit p).timers = p.timers ∧
    (FormManager.handleSubmit p).values = p.values ∧
    (FormManager.handleSubmit p).trace = p.trace ++ Effect.preventDefault ::
      ([FormField.name, .email, .subject, .message].filter
        (fun f => !fieldRule p.values f)).map
        (fun f => Effect.fieldError f (FormManager.formMessage f)) := by
  have hv : (fieldRule p.values .name && fieldRule p.values .email &&
      fieldRule p.values .subject && fieldRule p.values .message) = false := by
    rw [Bool.eq_false_iff]
    intro hc
    apply h
    simpa [fieldRule, and_assoc] using hc
  unfold FormManager.handleSubmit
  simp only [validateForm_eq, Page.log, hv]
  simp

/-- Witness of C2 on `{name:"A", email:"bad", subject:"Hi", message:"short"}`: a rule
fails, the location is unchanged and the button is not busy. -/
theorem handleSubmit_invalid_aborts_witness :
    ¬ (2 ≤ (trim (js "A")).length ∧ FormManager.isValidEmail (js "bad") = true ∧
        3 ≤ (trim (js "Hi")).length ∧ 10 ≤ (trim (js "short")).length) ∧
    (FormManager.handleSubmit (Page.fresh ⟨js "A", js "bad", js "Hi", js "short"⟩)).href
        = js "https://example.org/" ∧
    (FormManager.handleSubmit
        (Page.fresh ⟨js "A", js "bad", js "Hi", js "short"⟩)).btnLoading = false :=
  have h := handleSubmit_invalid_aborts (Page.fresh ⟨js "A", js "bad", js "Hi", js "short"⟩)
    (by decide)
  ⟨by decide, h.1, h.2.1⟩

/-- C3: when the four rules hold and neither `encodeURIComponent` call throws,
`handleSubmit` logs exactly: busy on, one navigation to
`mailto:ayahady052@gmail.com?subject=<encoded subject>&body=<encoded body>`, one
notification of type success, the form reset, busy off. Afterwards the location is
that URI, the new notification has replaced the first existing one, the fields hold
their default values and the submit button is enabled without the loading class. -/
theorem handleSubmit_valid_hands_off (p : Page) (es eb : JSString)
    (hname : 2 ≤ (trim p.values.name).length)
    (hemail : FormManager.isValidEmail p.values.email = true)
    (hsubject : 3 ≤ (trim p.values.subject).length)
    (hmessage : 10 ≤ (trim p.values.message).length)
    (hes : encodeURIComponent p.values.subject = some es)
    (heb : encodeURIComponent (js "Name: " ++ p.values.name ++ js "\nEmail: " ++ p.values.email
      ++ js "\nSubject: " ++ p.values.subject ++ js "\n\nMessage:\n" ++ p.values.message)
      = some eb) :
    (FormManager.handleSubmit p).trace = p.trace ++
      [Effect.preventDefault, Effect.loading true,
       Effect.navigate (js "mailto:ayahady052@gmail.com?subject=" ++ es ++ js "&body=" ++ eb),
       Effect.notify (js "success")
         (js "Email client opened! Please send the message from your email app."),
       Effect.reset, Effect.loading false] ∧
    (FormManager.handleSubmit p).href
      = js "mailto:ayahady052@gmail.com?subject=" ++ es ++ js "&body=" ++ eb ∧
    (FormManager.handleSubmit p).notifications = p.notifications.tail ++
      [{ id := p.nextId, type := js "success",
         message := js "Email client opened! Please send the message from your email app.",
         opacity := none, transform := none }] ∧
    (FormManager.handleSubmit p).values = p.defaults ∧
    (FormManager.handleSubmit p).btnLoading = false ∧
    (FormManager.handleSubmit p).btnDisabled = false := by
  have h1 : fieldRule p.values .name = true := by simp [fieldRule, hname]
  have h2 : fieldRule p.values .email = true := by simp [fieldRule, hemail]
  have h3 : fieldRule p.values .subject = true := by simp [fieldRule, hsubject]
  have h4 : fieldRule p.values .message = true := by simp [fieldRule, hmessage]
  unfold FormManager.handleSubmit
  simp only [validateForm_eq, Page.log, h1, h2, h3, h4, FormManager.emailBody, hes, heb]
  cases hn : p.notifications <;>
    simp [FormManager.setLoadingState, FormManager.showNotification,
      FormManager.addNotificationStyles, hn] <;>
    split <;> simp [h1, h2, h3, h4]

set_option maxRecDepth 100000 in
/-- Witness of C3 on `{name:"Aya H", email:"a@b.com", subject:"Hello there",
message:"This is a sufficiently long message."}`. -/
theorem handleSubmit_valid_hands_off_witness :
    (FormManager.handleSubmit (Page.fresh ⟨js "Aya H", js "a@b.com", js "Hello there",
      js "This is a sufficiently long message."⟩)).href
      = js ("mailto:ayahady052@gmail.com?subject=Hello%20there&body=Name%3A%20Aya%20H%0A" ++
          "Email%3A%20a%40b.com%0ASubject%3A%20Hello%20there%0A%0AMessage%3A%0A" ++
          "This%20is%20a%20sufficiently%20long%20message.") ∧
    (FormManager.handleSubmit (Page.fresh ⟨js "Aya H", js "a@b.com", js "Hello there",
      js "This is a sufficiently long message."⟩)).btnDisabled = false :=
  have h := handleSubmit_valid_hands_off
    (Page.fresh ⟨js "Aya H", js "a@b.com", js "Hello there",
      js "This is a sufficiently long message."⟩)
    (js "Hello%20there")
    (js ("Name%3A%20Aya%20H%0AEmail%3A%20a%40b.com%0ASubject%3A%20Hello%20there%0A%0A" ++
      "Message%3A%0AThis%20is%20a%20sufficiently%20long%20message."))
    (by decide) (by decide) (by decide) (by decide) (by decide) (by decide)
  ⟨h.2.1, h.2.2.2.2.2⟩

theorem toggleTheme_light (s : ThemeManager) (h : s.currentTheme = js "light") :
    s.toggleTheme.currentTheme = js "dark" := by
  simp [ThemeManager.toggleTheme, ThemeManager.setTheme, h]

theorem toggleTheme_dark (s : ThemeManager) (h : s.currentTheme = js "dark") :
    s.toggleTheme.currentTheme = js "light" := by
  have hne : js "dark" ≠ js "light" := by decide
  simp [ThemeManager.toggleTheme, ThemeManager.setTheme, h, hne]

theorem toggleTheme_iterate (s : ThemeManager) (h : s.currentTheme = js "light") (N : Nat) :
    (ThemeManager.toggleTheme^[N] s).currentTheme
      = if N % 2 = 0 then js "light" else js "dark" := by
  induction N with
  | zero => simpa using h
  | succ n ih =>
    rw [Function.iterate_succ_apply']
    by_cases hn : n % 2 = 0
    · rw [if_pos hn] at ih
      have : (n + 1) % 2 ≠ 0 := by omega
      rw [if_neg this]
      exact toggleTheme_light _ ih
    · rw [if_neg hn] at ih
      have : (n + 1) % 2 = 0 := by omega
      rw [if_pos this]
      exact toggleTheme_dark _ ih

/-- C4: starting from a `ThemeManager` whose theme is light, after `N` calls of
`toggleTheme` the current theme is light when `N` is even and dark when `N` is odd;
after any `setTheme` (hence after any `toggleTheme`, after the constructor, and after
every one of the `N` toggles) the value stored under `theme` and the `data-theme`
attribute both equal the current theme. -/
theorem theme_parity_and_persisted (s : ThemeManager) (h : s.currentTheme = js "light")
    (N : Nat) :
    (ThemeManager.toggleTheme^[N] s).currentTheme
      = (if N % 2 = 0 then js "light" else js "dark") ∧
    (0 < N →
      (ThemeManager.toggleTheme^[N] s).storedTheme
          = some (ThemeManager.toggleTheme^[N] s).currentTheme ∧
      (ThemeManager.toggleTheme^[N] s).dataTheme
          = some (ThemeManager.toggleTheme^[N] s).currentTheme) ∧
    (∀ (theme : JSString) (m : ThemeManager),
      (m.setTheme theme).currentTheme = theme ∧ (m.setTheme theme).storedTheme = some theme ∧
      (m.setTheme theme).dataTheme = some theme) ∧
    (∀ m : ThemeManager,
      m.toggleTheme.storedTheme = some m.toggleTheme.currentTheme ∧
      m.toggleTheme.dataTheme = some m.toggleTheme.currentTheme) ∧
    (∀ (stored attr : Option JSString) (icon : JSString),
      (ThemeManager.constructor stored attr icon).storedTheme
          = some (ThemeManager.constructor stored attr icon).currentTheme ∧
      (ThemeManager.constructor stored attr icon).dataTheme
          = some (ThemeManager.constructor stored attr icon).currentTheme) := by
  refine ⟨toggleTheme_iterate s h N, ?_, ?_, ?_, ?_⟩
  · intro hN
    obtain ⟨n, rfl⟩ : ∃ n, N = n + 1 := ⟨N - 1, by omega⟩
    rw [Function.iterate_succ_apply']
    simp [ThemeManager.toggleTheme, ThemeManager.setTheme]
  · intro theme m
    simp [ThemeManager.setTheme]
  · intro m
    simp [ThemeManager.toggleTheme, ThemeManager.setTheme]
  · intro stored attr icon
    simp [ThemeManager.constructor, ThemeManager.setTheme]

/-- Witness of C4: a fresh manager with nothing stored has the light theme, and after
three toggles its theme is dark. -/
theorem theme_parity_and_persisted_witness :
    (ThemeManager.constructor none none []).currentTheme = js "light" ∧
    (ThemeManager.toggleTheme^[3] (ThemeManager.constructor none none [])).currentTheme
      = js "dark" :=
  ⟨by decide, (theme_parity_and_persisted (ThemeManager.constructor none none [])
    (by decide) 3).1⟩

theorem foldl_overwrite_eq_last {α β : Type} (p : α → Bool) (f : α → β) (init : β)
    (l : List α) :
    l.foldl (fun cur a => if p a then f a else cur) init =
      ((l.filter p).getLast?.map f).getD init := by
  induction l using List.reverseRecOn with
  | nil => simp
  | append_singleton l a ih =>
    rw [List.foldl_append, List.filter_append]
    by_cases h : p a = true
    · simp [h]
    · simp [h, ih]

/-- C5 (as the code has it): `updateActiveLink` selects the last section in document
order whose interval `[offsetTop - 100, offsetTop - 100 + clientHeight)` contains the
offset, and selects none (the empty string) when no interval contains it; a link is
active afterwards exactly when its `href` without the leading `#` is the selected id.
With A (top 0, height 300) and B (top 300, height 400), offset 550 selects B and
offset 650 selects none. -/
theorem updateActiveLink_selects_last_matching (sections : List PageSection) (y : Int)
    (navLinks : List NavLink) :
    (∀ s : PageSection, NavigationManager.sectionMatches y s = true ↔
      (s.offsetTop - 100 ≤ y ∧ y < s.offsetTop - 100 + s.clientHeight)) ∧
    NavigationManager.current sections y =
      (((sections.filter (NavigationManager.sectionMatches y)).getLast?.map
        PageSection.id).getD (some [])) ∧
    NavigationManager.updateActiveLink sections y navLinks =
      navLinks.map (fun link =>
        { link with
          active := decide (some (substring link.href 1 link.href.length) =
            (((sections.filter (NavigationManager.sectionMatches y)).getLast?.map
              PageSection.id).getD (some []))) }) ∧
    NavigationManager.current
      [⟨some (js "a"), 0, 300⟩, ⟨some (js "b"), 300, 400⟩] 550 = some (js "b") ∧
    NavigationManager.current
      [⟨some (js "a"), 0, 300⟩, ⟨some (js "b"), 300, 400⟩] 650 = some [] := by
  have hcur : NavigationManager.current sections y =
      (((sections.filter (NavigationManager.sectionMatches y)).getLast?.map
        PageSection.id).getD (some [])) := by
    unfold NavigationManager.current
    exact foldl_overwrite_eq_last (NavigationManager.sectionMatches y) PageSection.id (some [])
      sections
  refine ⟨?_, hcur, ?_, by decide, by decide⟩
  · intro s
    simp [NavigationManager.sectionMatches]
  · unfold NavigationManager.updateActiveLink
    rw [hcur]

/-- Counterexample to C5 as stated: with A (top 0, height 300) and B (top 300,
height 400) the offset 650 lies in B's interval `[top - 100, top + height)` of the
specification, yet the code selects no section and marks no link active. -/
theorem updateActiveLink_offset_650_selects_none :
    ([(⟨some (js "a"), 0, 300⟩ : PageSection), ⟨some (js "b"), 300, 400⟩].filter
        (specInterval 650)).getLast? = some ⟨some (js "b"), 300, 400⟩ ∧
    NavigationManager.current
      [⟨some (js "a"), 0, 300⟩, ⟨some (js "b"), 300, 400⟩] 650 = some [] ∧
    NavigationManager.current
      [⟨some (js "a"), 0, 300⟩, ⟨some (js "b"), 300, 400⟩] 650 ≠ some (js "b") ∧
    NavigationManager.updateActiveLink
      [⟨some (js "a"), 0, 300⟩, ⟨some (js "b"), 300, 400⟩] 650
      [⟨js "#a", false⟩, ⟨js "#b", true⟩] = [⟨js "#a", false⟩, ⟨js "#b", false⟩] := by
  decide

/-- C6 (as the code has it): on a scroll event whose offset lies in no section's
interval, `updateActiveLink` does not keep the previous active link: whatever the
links carried before, afterwards a link is active only if its `href` without the
first character is the empty string, so every link naming a section is inactive. -/
theorem updateActiveLink_no_match_resets (sections : List PageSection) (y : Int)
    (navLinks : List NavLink)
    (h : ∀ s ∈ sections, NavigationManager.sectionMatches y s = false) :
    NavigationManager.updateActiveLink sections y navLinks =
      navLinks.map (fun link =>
        { link with active := decide (substring link.href 1 link.href.length = []) }) ∧
    (∀ link ∈ NavigationManager.updateActiveLink sections y navLinks,
      substring link.href 1 link.href.length ≠ [] → link.active = false) := by
  have hf : sections.filter (NavigationManager.sectionMatches y) = [] := by
    rw [List.filter_eq_nil_iff]
    intro s hs
    simp [h s hs]
  have hcur : NavigationManager.current sections y = some [] := by
    unfold NavigationManager.current
    rw [foldl_overwrite_eq_last (NavigationManager.sectionMatches y) PageSection.id (some [])
      sections, hf]
    rfl
  have hmap : NavigationManager.updateActiveLink sections y navLinks =
      navLinks.map (fun link =>
        { link with active := decide (substring link.href 1 link.href.length = []) }) := by
    unfold NavigationManager.updateActiveLink
    rw [hcur]
    simp
  refine ⟨hmap, ?_⟩
  intro link hl hne
  rw [hmap, List.mem_map] at hl
  obtain ⟨l0, _, rfl⟩ := hl
  simpa using hne

/-- Witness of C6 (as the code has it): one section (top 500, height 300), offset 0,
and a link `#about` that was active. -/
theorem updateActiveLink_no_match_resets_witness :
    (∀ s ∈ [(⟨some (js "about"), 500, 300⟩ : PageSection)],
      NavigationManager.sectionMatches 0 s = false) ∧
    NavigationManager.updateActiveLink [⟨some (js "about"), 500, 300⟩] 0
      [⟨js "#about", true⟩] = [⟨js "#about", false⟩] :=
  ⟨by decide,
    (updateActiveLink_no_match_resets [⟨some (js "about"), 500, 300⟩] 0 [⟨js "#about", true⟩]
      (by decide)).1⟩

/-- Counterexample to C6 as stated: one section (top 500, height 300) and the link
`#about`. The scroll event at offset 450 activates the link; the next event, at
offset 0, lies in no section's interval (neither the code's nor the specification's)
and leaves no link active, so the active set is not the one computed before. -/
theorem updateActiveLink_not_sticky :
    NavigationManager.updateActiveLink [⟨some (js "about"), 500, 300⟩] 450
      [⟨js "#about", false⟩] = [⟨js "#about", true⟩] ∧
    NavigationManager.sectionMatches 0 ⟨some (js "about"), 500, 300⟩ = false ∧
    specInterval 0 ⟨some (js "about"), 500, 300⟩ = false ∧
    NavigationManager.updateActiveLink [⟨some (js "about"), 500, 300⟩] 0
      (NavigationManager.updateActiveLink [⟨some (js "about"), 500, 300⟩] 450
        [⟨js "#about", false⟩]) = [⟨js "#about", false⟩] ∧
    NavigationManager.updateActiveLink [⟨some (js "about"), 500, 300⟩] 0
      (NavigationManager.updateActiveLink [⟨some (js "about"), 500, 300⟩] 450
        [⟨js "#about", false⟩]) ≠
      NavigationManager.updateActiveLink [⟨some (js "about"), 500, 300⟩] 450
        [⟨js "#about", false⟩] := by
  decide

theorem substring_zero (s : JSString) (e : Int) : substring s 0 e = s.take e.toNat := by
  simp [substring, List.take_eq_take]

theorem ticks_succ_last (n : Nat) (s : TypingAnimation) :
    TypingAnimation.ticks (n + 1) s = (TypingAnimation.ticks n s).bind TypingAnimation.type := by
  induction n generalizing s with
  | zero => simp [TypingAnimation.ticks]
  | succ n ih =>
    rw [TypingAnimation.ticks]
    cases h : TypingAnimation.type s with
    | none => simp [TypingAnimation.ticks, h]
    | some u =>
      simp only [Option.some_bind]
      rw [ih u]
      simp [TypingAnimation.ticks, h]

/-- One call of `type` while typing, at a position before the end of the phrase. -/
theorem type_typing_step (u : TypingAnimation) (phrase : JSString) (k : Nat)
    (ht : u.texts[u.textIndex]? = some phrase) (hd : u.isDeleting = false)
    (hc : u.charIndex = (k : Int)) :
    TypingAnimation.type u = some
      { u with
        textContent := phrase.take (k + 1)
        charIndex := ((k + 1 : Nat) : Int)
        isDeleting := decide (k + 1 = phrase.length)
        timeout := if k + 1 = phrase.length then u.delay else u.speed } := by
  unfold TypingAnimation.type
  rw [ht]
  simp only [hd, hc, substring_zero]
  have e1 : ((k : Int) + 1).toNat = k + 1 := by omega
  by_cases hk : k + 1 = phrase.length
  · have : ((k : Int) + 1 = (phrase.length : Int)) := by omega
    simp [e1, hk, this]
  · have : ¬ ((k : Int) + 1 = (phrase.length : Int)) := by omega
    simp [e1, hk, this, hd]

/-- One call of `type` while deleting, at a position after the start of the phrase. -/
theorem type_deleting_step (u : TypingAnimation) (phrase : JSString) (c : Nat)
    (ht : u.texts[u.textIndex]? = some phrase) (hd : u.isDeleting = true)
    (hc : u.charIndex = ((c + 1 : Nat) : Int)) :
    TypingAnimation.type u = some
      (if c = 0 then
        { u with
          textContent := phrase.take c
          charIndex := (c : Int)
          timeout := u.deleteSpeed
          isDeleting := false
          textIndex := (u.textIndex + 1) % u.texts.length }
      else
        { u with
          textContent := phrase.take c
          charIndex := (c : Int)
          timeout := u.deleteSpeed }) := by
  unfold TypingAnimation.type
  rw [ht]
  simp only [hd, hc, substring_zero]
  have e1 : (((c + 1 : Nat) : Int) - 1).toNat = c := by omega
  have e2 : (((c + 1 : Nat) : Int) - 1) = (c : Int) := by omega
  by_cases h0 : c = 0
  · subst h0
    simp
  · have : ¬ ((c : Int) = 0) := by omega
    simp [e1, e2, h0, this]

/-- The typing phase: `k` calls of `type` from the start of a phrase, `1 ≤ k ≤ L`. -/
theorem ticks_typing_phase (s : TypingAnimation) (phrase : JSString)
    (ht : s.texts[s.textIndex]? = some phrase) (hd : s.isDeleting = false)
    (hc : s.charIndex = 0) (k : Nat) (h1 : 1 ≤ k) (hk : k ≤ phrase.length) :
    TypingAnimation.ticks k s = some
      { s with
        textContent := phrase.take k
        charIndex := (k : Int)
        isDeleting := decide (k = phrase.length)
        timeout := if k = phrase.length then s.delay else s.speed } := by
  induction k with
  | zero => omega
  | succ k ih =>
    rw [ticks_succ_last]
    by_cases h0 : k = 0
    · subst h0
      simp only [TypingAnimation.ticks, Option.some_bind]
      exact type_typing_step s phrase 0 ht hd (by simpa using hc)
    · rw [ih (by omega) (by omega)]
      simp only [Option.some_bind]
      have hlt : ¬ k = phrase.length := by omega
      rw [type_typing_step _ phrase k (by simpa using ht) (by simp [hlt]) rfl]

/-- The deleting phase: `L + j` calls of `type` from the start of a phrase, `j < L`. -/
theorem ticks_deleting_phase (s : TypingAnimation) (phrase : JSString)
    (ht : s.texts[s.textIndex]? = some phrase) (hd : s.isDeleting = false)
    (hc : s.charIndex = 0) (j : Nat) (hj : j < phrase.length) :
    TypingAnimation.ticks (phrase.length + j) s = some
      { s with
        textContent := phrase.take (phrase.length - j)
        charIndex := ((phrase.length - j : Nat) : Int)
        isDeleting := true
        timeout := if j = 0 then s.delay else s.deleteSpeed } := by
  induction j with
  | zero =>
    rw [Nat.add_zero, ticks_typing_phase s phrase ht hd hc phrase.length (by omega) le_rfl]
    simp
  | succ j ih =>
    rw [← Nat.add_assoc, ticks_succ_last, ih (by omega)]
    simp only [Option.some_bind]
    rw [type_deleting_step _ phrase (phrase.length - j - 1) (by simpa using ht) rfl
      (by simp only; omega)]
    have hne : ¬ phrase.length - j - 1 = 0 := by omega
    have e : phrase.length - j - 1 = phrase.length - (j + 1) := by omega
    rw [if_neg hne, e]
    simp

/-- A whole phrase cycle: `2 * L` calls of `type` from the start of a non-empty
phrase lead to the start of the next phrase. -/
theorem ticks_phrase_cycle (s : TypingAnimation) (phrase : JSString)
    (ht : s.texts[s.textIndex]? = some phrase) (hd : s.isDeleting = false)
    (hc : s.charIndex = 0) (hL : 0 < phrase.length) :
    TypingAnimation.ticks (2 * phrase.length) s = some
      { s with
        textContent := []
        charIndex := 0
        isDeleting := false
        timeout := s.deleteSpeed
        textIndex := (s.textIndex + 1) % s.texts.length } := by
  have e : 2 * phrase.length = phrase.length + (phrase.length - 1) + 1 := by omega
  rw [e, ticks_succ_last, ticks_deleting_phase s phrase ht hd hc (phrase.length - 1) (by omega)]
  simp only [Option.some_bind]
  rw [type_deleting_step _ phrase 0 (by simpa using ht) rfl (by simp only; omega)]
  simp

/-- One call of `type` keeps the position inside the current phrase, provided no
phrase is empty: while typing the position is below the length, while deleting it
is at least 1 and at most the length. -/
theorem type_preserves_bounds (s : TypingAnimation) (t : JSString)
    (hall : ∀ x ∈ s.texts, x ≠ []) (ht : s.texts[s.textIndex]? = some t)
    (hb : if s.isDeleting then (1 ≤ s.charIndex ∧ s.charIndex ≤ (t.length : Int))
      else (0 ≤ s.charIndex ∧ s.charIndex < (t.length : Int))) :
    ∃ s2 t2, TypingAnimation.type s = some s2 ∧ s2.texts = s.texts ∧
      s2.texts[s2.textIndex]? = some t2 ∧
      (if s2.isDeleting then (1 ≤ s2.charIndex ∧ s2.charIndex ≤ (t2.length : Int))
        else (0 ≤ s2.charIndex ∧ s2.charIndex < (t2.length : Int))) := by
  cases hd : s.isDeleting with
  | false =>
    rw [hd] at hb
    simp only [Bool.false_eq_true, if_false] at hb
    obtain ⟨k, hk⟩ := Int.eq_ofNat_of_zero_le hb.1
    have hstep := type_typing_step s t k ht hd hk
    refine ⟨_, t, hstep, rfl, by simpa using ht, ?_⟩
    by_cases hkl : k + 1 = t.length
    · simp only [hkl, decide_True, if_true]
      omega
    · simp only [hkl, decide_False, Bool.false_eq_true, if_false]
      omega
  | true =>
    rw [hd] at hb
    simp only [if_true] at hb
    obtain ⟨c, hc⟩ : ∃ c : Nat, s.charIndex = ((c + 1 : Nat) : Int) :=
      ⟨(s.charIndex - 1).toNat, by omega⟩
    have hstep := type_deleting_step s t c ht hd hc
    by_cases h0 : c = 0
    · rw [if_pos h0] at hstep
      have hlen : 0 < s.texts.length := by
        have := (List.getElem?_eq_some_iff.mp ht).1
        omega
      have hidx : (s.textIndex + 1) % s.texts.length < s.texts.length := Nat.mod_lt _ hlen
      have hmem : s.texts[(s.textIndex + 1) % s.texts.length] ∈ s.texts :=
        List.getElem_mem hidx
      have hnon := hall _ hmem
      refine ⟨_, s.texts[(s.textIndex + 1) % s.texts.length], hstep, rfl, ?_, ?_⟩
      · simp [List.getElem?_eq_getElem hidx]
      · simp only [Bool.false_eq_true, if_false]
        have : 0 < (s.texts[(s.textIndex + 1) % s.texts.length]).length :=
          List.length_pos.mpr hnon
        omega
    · rw [if_neg h0] at hstep
      refine ⟨_, t, hstep, rfl, by simpa using ht, ?_⟩
      simp only [hd, if_true]
      omega

/-- Any number of calls of `type` from a state inside its phrase returns a state
inside its phrase, provided no phrase is empty. -/
theorem ticks_preserve_bounds (n : Nat) (s : TypingAnimation) (t : JSString)
    (hall : ∀ x ∈ s.texts, x ≠ []) (ht : s.texts[s.textIndex]? = some t)
    (hb : if s.isDeleting then (1 ≤ s.charIndex ∧ s.charIndex ≤ (t.length : Int))
      else (0 ≤ s.charIndex ∧ s.charIndex < (t.length : Int))) :
    ∃ s2 t2, TypingAnimation.ticks n s = some s2 ∧ s2.texts = s.texts ∧
      s2.texts[s2.textIndex]? = some t2 ∧
      (if s2.isDeleting then (1 ≤ s2.charIndex ∧ s2.charIndex ≤ (t2.length : Int))
        else (0 ≤ s2.charIndex ∧ s2.charIndex < (t2.length : Int))) := by
  induction n with
  | zero => exact ⟨s, t, rfl, rfl, ht, hb⟩
  | succ n ih =>
    obtain ⟨s1, t1, h1, htx, ht1, hb1⟩ := ih
    obtain ⟨s2, t2, h2, htx2, ht2, hb2⟩ :=
      type_preserves_bounds s1 t1 (by rw [htx]; exact hall) ht1 hb1
    refine ⟨s2, t2, ?_, by rw [htx2, htx], ht2, hb2⟩
    rw [ticks_succ_last, h1]
    exact h2

/-- C7 (amended): for every phrase list that is non-empty and has no empty phrase,
and every number of calls of `type` from the initial state (textIndex 0, charIndex
0, not deleting), the calls return a state with `textIndex < length(texts)` and
`0 ≤ charIndex ≤ length(texts[textIndex])`. -/
theorem typing_charIndex_within_phrase (texts : List JSString) (speed deleteSpeed delay : Nat)
    (n : Nat) (hne : texts ≠ []) (hall : ∀ x ∈ texts, x ≠ []) :
    ∃ s t, (TypingAnimation.initial texts speed deleteSpeed delay).ticks n = some s ∧
      s.texts = texts ∧ s.textIndex < texts.length ∧ texts[s.textIndex]? = some t ∧
      0 ≤ s.charIndex ∧ s.charIndex ≤ (t.length : Int) := by
  obtain ⟨t0, rest, rfl⟩ := List.exists_cons_of_ne_nil hne
  have ht0 : t0 ≠ [] := hall t0 (List.mem_cons_self _ _)
  have hpos : 0 < t0.length := List.length_pos.mpr ht0
  obtain ⟨s, t, hs, htx, ht, hb⟩ :=
    ticks_preserve_bounds n (TypingAnimation.initial (t0 :: rest) speed deleteSpeed delay) t0
      (by simpa [TypingAnimation.initial] using hall)
      (by simp [TypingAnimation.initial])
      (by simp only [TypingAnimation.initial, Bool.false_eq_true, if_false]; omega)
  simp only [TypingAnimation.initial] at htx
  rw [htx] at ht
  refine ⟨s, t, hs, htx, (List.getElem?_eq_some_iff.mp ht).1, ht, ?_, ?_⟩
  · split at hb <;> omega
  · split at hb <;> omega

/-- Witness of C7 (amended) on the phrases `["Hi", "Yo"]` after 7 calls. -/
theorem typing_charIndex_within_phrase_witness :
    [js "Hi", js "Yo"] ≠ [] ∧ (∀ x ∈ [js "Hi", js "Yo"], x ≠ []) ∧
    ∃ s t, (TypingAnimation.initial [js "Hi", js "Yo"] 100 50 2000).ticks 7 = some s ∧
      s.texts = [js "Hi", js "Yo"] ∧ s.textIndex < [js "Hi", js "Yo"].length ∧
      [js "Hi", js "Yo"][s.textIndex]? = some t ∧
      0 ≤ s.charIndex ∧ s.charIndex ≤ (t.length : Int) :=
  ⟨by decide, by decide,
    typing_charIndex_within_phrase [js "Hi", js "Yo"] 100 50 2000 7 (by decide) (by decide)⟩

/-- Counterexample to C7 as stated: the phrase list `[""]` is non-empty, and one call
of `type` from the initial state gives charIndex 1, above the length 0 of the
current phrase; seven calls give charIndex 7. -/
theorem typing_empty_phrase_overruns :
    ([[]] : List JSString) ≠ [] ∧
    ((TypingAnimation.initial [[]] 100 50 2000).ticks 1).map
      (fun s => (s.textIndex, s.charIndex, s.isDeleting)) = some (0, 1, false) ∧
    ((TypingAnimation.initial [[]] 100 50 2000).ticks 7).map
      (fun s => (s.textIndex, s.charIndex, s.isDeleting)) = some (0, 7, false) ∧
    ([[]] : List JSString)[0]? = some [] ∧
    ¬ ((1 : Int) ≤ ((([] : JSString).length : Nat) : Int)) := by
  decide

/-- C8 (amended): from the start of a non-empty phrase of length `L` (state with
`textIndex = i`, `charIndex = 0`, not deleting), the `k`-th call of `type` for
`1 ≤ k ≤ L` shows the first `k` code units (the `L`-th one schedules the next call
after `delay` and switches to deleting), the call number `L + j` for `1 ≤ j < L`
shows the first `L - j` code units, and after exactly `2 * L` calls the element is
empty and the state is at `textIndex = (i + 1) mod n`, `charIndex = 0`, typing. -/
theorem typing_phrase_cycle (s : TypingAnimation) (phrase : JSString)
    (ht : s.texts[s.textIndex]? = some phrase) (hd : s.isDeleting = false)
    (hc : s.charIndex = 0) (hL : 0 < phrase.length) :
    (∀ k, 1 ≤ k → k ≤ phrase.length →
      TypingAnimation.ticks k s = some
        { s with
          textContent := phrase.take k
          charIndex := (k : Int)
          isDeleting := decide (k = phrase.length)
          timeout := if k = phrase.length then s.delay else s.speed }) ∧
    (∀ j, 1 ≤ j → j < phrase.length →
      TypingAnimation.ticks (phrase.length + j) s = some
        { s with
          textContent := phrase.take (phrase.length - j)
          charIndex := ((phrase.length - j : Nat) : Int)
          isDeleting := true
          timeout := s.deleteSpeed }) ∧
    TypingAnimation.ticks (2 * phrase.length) s = some
      { s with
        textContent := []
        charIndex := 0
        isDeleting := false
        timeout := s.deleteSpeed
        textIndex := (s.textIndex + 1) % s.texts.length } := by
  refine ⟨fun k h1 hk => ticks_typing_phase s phrase ht hd hc k h1 hk, ?_,
    ticks_phrase_cycle s phrase ht hd hc hL⟩
  intro j h1 hj
  rw [ticks_deleting_phase s phrase ht hd hc j hj]
  have : ¬ j = 0 := by omega
  simp [this]

/-- Witness of C8 (amended) on `["Hi", "Yo"]`: four calls from the initial state
lead to the start of "Yo", four more lead back to the start of "Hi". -/
theorem typing_phrase_cycle_witness :
    TypingAnimation.ticks 4 (TypingAnimation.initial [js "Hi", js "Yo"] 100 50 2000) = some
      { TypingAnimation.initial [js "Hi", js "Yo"] 100 50 2000 with
        timeout := 50, textIndex := 1 } ∧
    TypingAnimation.ticks 4
      { TypingAnimation.initial [js "Hi", js "Yo"] 100 50 2000 with
        timeout := 50, textIndex := 1 } = some
      { TypingAnimation.initial [js "Hi", js "Yo"] 100 50 2000 with
        timeout := 50, textIndex := 0 } :=
  ⟨(typing_phrase_cycle (TypingAnimation.initial [js "Hi", js "Yo"] 100 50 2000) (js "Hi")
      (by decide) (by decide) (by decide) (by decide)).2.2,
   (typing_phrase_cycle
      { TypingAnimation.initial [js "Hi", js "Yo"] 100 50 2000 with
        timeout := 50, textIndex := 1 } (js "Yo")
      (by decide) (by decide) (by decide) (by decide)).2.2⟩

/-- Counterexample to C8 as stated: in the non-empty list `["", "a"]` the phrase at
index 0 has length 0; after `2 * 0` calls of `type` the state is still at textIndex
0, not at `(0 + 1) mod 2 = 1`, and further calls never leave index 0 (after 1 and
after 9 calls: textIndex 0, charIndex 1 and 9, empty element). -/
theorem typing_empty_phrase_never_advances :
    ([[], js "a"] : List JSString) ≠ [] ∧
    ([[], js "a"] : List JSString)[0]? = some [] ∧
    (TypingAnimation.ticks (2 * ([] : JSString).length)
      (TypingAnimation.initial [[], js "a"] 100 50 2000)).map
      (fun s => (s.textIndex, s.charIndex, s.isDeleting)) = some (0, 0, false) ∧
    (TypingAnimation.ticks (2 * ([] : JSString).length)
      (TypingAnimation.initial [[], js "a"] 100 50 2000)).map
      (fun s => s.textIndex) ≠ some ((0 + 1) % 2) ∧
    (TypingAnimation.ticks 1 (TypingAnimation.initial [[], js "a"] 100 50 2000)).map
      (fun s => (s.textIndex, s.charIndex, s.isDeleting, s.textContent))
        = some (0, 1, false, []) ∧
    (TypingAnimation.ticks 9 (TypingAnimation.initial [[], js "a"] 100 50 2000)).map
      (fun s => (s.textIndex, s.charIndex, s.isDeleting, s.textContent))
        = some (0, 9, false, []) := by
  decide

theorem roundHalfEven_near (q : ℚ) :
    q - 1 / 2 ≤ (roundHalfEven q : ℚ) ∧ (roundHalfEven q : ℚ) ≤ q + 1 / 2 := by
  have h1 : (⌊q⌋ : ℚ) ≤ q := Int.floor_le q
  have h2 : q < (⌊q⌋ : ℚ) + 1 := Int.lt_floor_add_one q
  unfold roundHalfEven
  simp only []
  split_ifs with ha hb hc
  · constructor <;> linarith
  · constructor <;> push_cast <;> linarith
  · have : q - (⌊q⌋ : ℚ) = 1 / 2 := le_antisymm (not_lt.mp hb) (not_lt.mp ha)
    constructor <;> linarith
  · have : q - (⌊q⌋ : ℚ) = 1 / 2 := le_antisymm (not_lt.mp hb) (not_lt.mp ha)
    constructor <;> push_cast <;> linarith

/-- The relative error of binary64 rounding is at most `2⁻⁵³`. -/
theorem round64_near (x : ℚ) (hx : 0 < x) :
    x * (1 - 1 / 2 ^ 53) ≤ round64 x ∧ round64 x ≤ x * (1 + 1 / 2 ^ 53) := by
  have hne : x ≠ 0 := ne_of_gt hx
  have habs : |x| = x := abs_of_pos hx
  have hlog : (2 : ℚ) ^ Int.log 2 x ≤ x := by
    have := Int.zpow_log_le_self (b := 2) (r := x) (by norm_num) hx
    simpa using this
  have hulp : (2 : ℚ) ^ (Int.log 2 x - 52) = (2 : ℚ) ^ Int.log 2 x / 2 ^ 52 := by
    rw [zpow_sub₀ (by norm_num : (2 : ℚ) ≠ 0)]
    norm_num
  have hpos : (0 : ℚ) < (2 : ℚ) ^ (Int.log 2 x - 52) := zpow_pos (by norm_num) _
  obtain ⟨hlo, hhi⟩ := roundHalfEven_near (x / (2 : ℚ) ^ (Int.log 2 x - 52))
  have hmul : x / (2 : ℚ) ^ (Int.log 2 x - 52) * (2 : ℚ) ^ (Int.log 2 x - 52) = x :=
    div_mul_cancel₀ x (ne_of_gt hpos)
  have hsmall : (2 : ℚ) ^ (Int.log 2 x - 52) / 2 ≤ x * (1 / 2 ^ 53) := by
    rw [hulp]
    have : (2 : ℚ) ^ Int.log 2 x / 2 ^ 52 / 2 = (2 : ℚ) ^ Int.log 2 x * (1 / 2 ^ 53) := by
      ring
    rw [this]
    exact mul_le_mul_of_nonneg_right hlog (by norm_num)
  unfold round64
  simp only [hne, if_false, habs]
  have e1 := mul_le_mul_of_nonneg_right hlo hpos.le
  have e2 := mul_le_mul_of_nonneg_right hhi hpos.le
  rw [sub_mul, hmul] at e1
  rw [add_mul, hmul] at e2
  constructor
  · linarith
  · linarith

theorem tick_cleared (target : Int) (u : CounterState) (h : u.cleared = true) :
    StatsCounter.tick target u = u := by
  simp [StatsCounter.tick, h]

theorem tick_running (target : Int) (u : CounterState) (h : u.cleared = false) :
    StatsCounter.tick target u =
      if fadd u.current (StatsCounter.step target) ≥ (target : ℚ) then
        { current := target, cleared := true, displayed := u.displayed ++ [⌊(target : ℚ)⌋] }
      else
        { current := fadd u.current (StatsCounter.step target), cleared := false,
          displayed := u.displayed ++ [⌊fadd u.current (StatsCounter.step target)⌋] } := by
  simp [StatsCounter.tick, h]

/-- The rounded step is at least `target * (1 - 2⁻⁵³) / (125 * (1 + 2⁻⁵³))`. -/
theorem step_lower (target : Int) (ht : 0 < target) :
    (target : ℚ) * ((1 - 1 / 2 ^ 53) / (125 * (1 + 1 / 2 ^ 53))) ≤ StatsCounter.step target := by
  have hT : (0 : ℚ) < (target : ℚ) := by exact_mod_cast ht
  unfold StatsCounter.step fdiv
  simp only []
  have hd := round64_near ((2000 : ℚ) / 16) (by norm_num)
  have hdpos : (0 : ℚ) < round64 ((2000 : ℚ) / 16) := by
    refine lt_of_lt_of_le ?_ hd.1
    norm_num
  have hq : (0 : ℚ) < (target : ℚ) / round64 ((2000 : ℚ) / 16) := div_pos hT hdpos
  have hs := (round64_near _ hq).1
  have hdle : round64 ((2000 : ℚ) / 16) ≤ 125 * (1 + 1 / 2 ^ 53) := by
    have := hd.2
    norm_num at this ⊢
    linarith
  have h1 : (target : ℚ) / (125 * (1 + 1 / 2 ^ 53)) ≤ (target : ℚ) / round64 ((2000 : ℚ) / 16) :=
    div_le_div_of_nonneg_left hT.le hdpos hdle
  have h2 : (target : ℚ) / (125 * (1 + 1 / 2 ^ 53)) * (1 - 1 / 2 ^ 53)
      ≤ (target : ℚ) / round64 ((2000 : ℚ) / 16) * (1 - 1 / 2 ^ 53) :=
    mul_le_mul_of_nonneg_right h1 (by norm_num)
  calc (target : ℚ) * ((1 - 1 / 2 ^ 53) / (125 * (1 + 1 / 2 ^ 53)))
      = (target : ℚ) / (125 * (1 + 1 / 2 ^ 53)) * (1 - 1 / 2 ^ 53) := by ring
    _ ≤ (target : ℚ) / round64 ((2000 : ℚ) / 16) * (1 - 1 / 2 ^ 53) := h2
    _ ≤ _ := hs

/-- One addition of the step to a running total below the target raises it by at
least `target / 126`. -/
theorem fadd_step_progress (target : Int) (ht : 0 < target) (c : ℚ) (h0 : 0 ≤ c)
    (hc : c < (target : ℚ)) :
    c + (target : ℚ) / 126 ≤ fadd c (StatsCounter.step target) := by
  have hT : (0 : ℚ) < (target : ℚ) := by exact_mod_cast ht
  have hst := step_lower target ht
  have hk : (0 : ℚ) < (1 - 1 / 2 ^ 53) / (125 * (1 + 1 / 2 ^ 53)) := by norm_num
  have hspos : 0 < StatsCounter.step target := lt_of_lt_of_le (mul_pos hT hk) hst
  have hr := (round64_near (c + StatsCounter.step target) (by linarith)).1
  unfold fadd
  have hnum : (1 : ℚ) / 126 ≤
      (1 - 1 / 2 ^ 53) / (125 * (1 + 1 / 2 ^ 53)) * (1 - 1 / 2 ^ 53) - 1 / 2 ^ 53 := by
    norm_num
  have h3 : (target : ℚ) * ((1 - 1 / 2 ^ 53) / (125 * (1 + 1 / 2 ^ 53))) * (1 - 1 / 2 ^ 53)
      ≤ StatsCounter.step target * (1 - 1 / 2 ^ 53) :=
    mul_le_mul_of_nonneg_right hst (by norm_num)
  have h4 : c * (1 / 2 ^ 53) ≤ (target : ℚ) * (1 / 2 ^ 53) :=
    mul_le_mul_of_nonneg_right hc.le (by norm_num)
  have h5 : (target : ℚ) * (1 / 126) ≤ (target : ℚ) *
      ((1 - 1 / 2 ^ 53) / (125 * (1 + 1 / 2 ^ 53)) * (1 - 1 / 2 ^ 53) - 1 / 2 ^ 53) :=
    mul_le_mul_of_nonneg_left hnum hT.le
  have h6 : (c + StatsCounter.step target) * (1 - 1 / 2 ^ 53)
      = c + StatsCounter.step target * (1 - 1 / 2 ^ 53) - c * (1 / 2 ^ 53) := by ring
  rw [h6] at hr
  have h7 : (target : ℚ) *
      ((1 - 1 / 2 ^ 53) / (125 * (1 + 1 / 2 ^ 53)) * (1 - 1 / 2 ^ 53) - 1 / 2 ^ 53)
      = (target : ℚ) * ((1 - 1 / 2 ^ 53) / (125 * (1 + 1 / 2 ^ 53))) * (1 - 1 / 2 ^ 53)
        - (target : ℚ) * (1 / 2 ^ 53) := by ring
  rw [h7] at h5
  have h8 : (target : ℚ) / 126 = (target : ℚ) * (1 / 126) := by ring
  rw [h8]
  linarith

/-- The invariant of `animateCounter` for a positive target, after any number of
periods: while running, the total is in `[0, target)`, has grown by at least
`target / 126` per firing and one value was displayed per firing; once cleared the
total is the target and the last displayed value is the target; the displayed values
are non-decreasing and none exceeds the floor of the total. -/
theorem animateCounter_inv (target : Int) (ht : 0 < target) (n : Nat) :
    ((StatsCounter.animateCounter target n).cleared = false →
      (0 ≤ (StatsCounter.animateCounter target n).current ∧
       (StatsCounter.animateCounter target n).current < (target : ℚ) ∧
       (n : ℚ) * (target : ℚ) / 126 ≤ (StatsCounter.animateCounter target n).current ∧
       (StatsCounter.animateCounter target n).displayed.length = n)) ∧
    ((StatsCounter.animateCounter target n).cleared = true →
      ((StatsCounter.animateCounter target n).current = (target : ℚ) ∧
       (StatsCounter.animateCounter target n).displayed.getLast? = some target)) ∧
    List.Pairwise (fun a b : Int => a ≤ b) (StatsCounter.animateCounter target n).displayed ∧
    (∀ v ∈ (StatsCounter.animateCounter target n).displayed,
      v ≤ ⌊(StatsCounter.animateCounter target n).current⌋) := by
  have hT : (0 : ℚ) < (target : ℚ) := by exact_mod_cast ht
  induction n with
  | zero => simp [StatsCounter.animateCounter, hT]
  | succ n ih =>
    obtain ⟨hrun, hclr, hsorted, hmax⟩ := ih
    unfold StatsCounter.animateCounter at hrun hclr hsorted hmax ⊢
    rw [Function.iterate_succ_apply']
    generalize (StatsCounter.tick target)^[n] _ = u
      at hrun hclr hsorted hmax
    cases hu : u.cleared with
    | true =>
      rw [tick_cleared _ u hu]
      exact ⟨fun h => absurd hu (by simp [h]), hclr, hsorted, hmax⟩
    | false =>
      obtain ⟨h0, hlt, hgrow, hlen⟩ := hrun hu
      have hprog := fadd_step_progress target ht u.current h0 hlt
      have hTpos : (0 : ℚ) ≤ (target : ℚ) / 126 := by positivity
      rw [tick_running _ u hu]
      by_cases hge : fadd u.current (StatsCounter.step target) ≥ (target : ℚ)
      · rw [if_pos hge]
        refine ⟨fun h => absurd h (by simp), fun _ => ⟨rfl, by simp⟩, ?_, ?_⟩
        · rw [List.pairwise_append]
          refine ⟨hsorted, List.pairwise_singleton _ _, ?_⟩
          intro a ha b hb
          rw [List.mem_singleton] at hb
          subst hb
          exact le_trans (hmax a ha) (Int.floor_mono hlt.le)
        · intro v hv
          rcases List.mem_append.mp hv with hv | hv
          · exact le_trans (hmax v hv) (Int.floor_mono hlt.le)
          · rw [List.mem_singleton] at hv
            rw [hv]
      · rw [if_neg hge]
        have hlt2 : fadd u.current (StatsCounter.step target) < (target : ℚ) := not_le.mp hge
        have hmono : u.current ≤ fadd u.current (StatsCounter.step target) := by linarith
        refine ⟨fun _ => ⟨by linarith, hlt2, ?_, by simp [hlen]⟩, fun h => absurd h (by simp),
          ?_, ?_⟩
        · push_cast
          have : ((n : ℚ) + 1) * (target : ℚ) / 126
              = (n : ℚ) * (target : ℚ) / 126 + (target : ℚ) / 126 := by ring
          rw [this]
          linarith
        · rw [List.pairwise_append]
          refine ⟨hsorted, List.pairwise_singleton _ _, ?_⟩
          intro a ha b hb
          rw [List.mem_singleton] at hb
          subst hb
          exact le_trans (hmax a ha) (Int.floor_mono hmono)
        · intro v hv
          rcases List.mem_append.mp hv with hv | hv
          · exact le_trans (hmax v hv) (Int.floor_mono hmono)
          · rw [List.mem_singleton] at hv
            rw [hv]

/-- Once the interval is cleared the state no longer changes. -/
theorem animateCounter_stable (target : Int) (N : Nat)
    (hN : (StatsCounter.animateCounter target N).cleared = true) (n : Nat) (hn : N ≤ n) :
    StatsCounter.animateCounter target n = StatsCounter.animateCounter target N := by
  induction n with
  | zero =>
    have : N = 0 := by omega
    subst this
    rfl
  | succ n ih =>
    by_cases h : N = n + 1
    · subst h
      rfl
    · have hle : N ≤ n := by omega
      have hprev := ih hle
      unfold StatsCounter.animateCounter at hprev hN ⊢
      rw [Function.iterate_succ_apply', hprev]
      exact tick_cleared _ _ hN

/-- Every firing of a running interval displays the floor of the new running total. -/
theorem animateCounter_displays_floor (target : Int) (n : Nat)
    (h : (StatsCounter.animateCounter target n).cleared = false) :
    (StatsCounter.animateCounter target (n + 1)).displayed =
      (StatsCounter.animateCounter target n).displayed ++
        [⌊(StatsCounter.animateCounter target (n + 1)).current⌋] := by
  unfold StatsCounter.animateCounter at h ⊢
  rw [Function.iterate_succ_apply']
  generalize (StatsCounter.tick target)^[n] _ = u at h
  rw [tick_running _ u h]
  split <;> rfl

theorem roundHalfEven_eq (q : ℚ) (m : ℤ) (h1 : (m : ℚ) - 1 / 2 < q) (h2 : q < (m : ℚ) + 1 / 2) :
    roundHalfEven q = m := by
  unfold roundHalfEven
  simp only []
  by_cases hq : (m : ℚ) ≤ q
  · have hf : ⌊q⌋ = m := Int.floor_eq_iff.mpr ⟨hq, by linarith⟩
    rw [hf, if_pos (by linarith)]
  · have hf : ⌊q⌋ = m - 1 := Int.floor_eq_iff.mpr ⟨by push_cast; linarith, by push_cast; linarith⟩
    rw [hf, if_neg (by push_cast; linarith), if_pos (by push_cast; linarith)]
    ring

theorem roundHalfEven_tie (q : ℚ) (f : ℤ) (h : q = (f : ℚ) + 1 / 2) :
    roundHalfEven q = if f % 2 = 0 then f else f + 1 := by
  have hf : ⌊q⌋ = f := Int.floor_eq_iff.mpr ⟨by linarith, by linarith⟩
  unfold roundHalfEven
  simp only []
  rw [hf, if_neg (by linarith), if_neg (by linarith)]

theorem round64_eval (x : ℚ) (e m : ℤ) (hlo : (2 : ℚ) ^ e ≤ x) (hhi : x < (2 : ℚ) ^ (e + 1))
    (hm : roundHalfEven (x / (2 : ℚ) ^ (e - 52)) = m) :
    round64 x = (m : ℚ) * (2 : ℚ) ^ (e - 52) := by
  have hx : 0 < x := lt_of_lt_of_le (zpow_pos (by norm_num) _) hlo
  have hlog : Int.log 2 x = e := by
    have h1 : e ≤ Int.log 2 x :=
      (Int.zpow_le_iff_le_log (b := 2) (by norm_num) hx).mp (by simpa using hlo)
    have h2 : Int.log 2 x < e + 1 :=
      (Int.lt_zpow_iff_log_lt (b := 2) (by norm_num) hx).mp (by simpa using hhi)
    omega
  unfold round64
  simp only [ne_of_gt hx, if_false, abs_of_pos hx, hlog, hm]

theorem fadd_eval (c s c2 : ℚ) (e m : ℤ) (hlo : (2 : ℚ) ^ e ≤ c + s)
    (hhi : c + s < (2 : ℚ) ^ (e + 1))
    (hm : roundHalfEven ((c + s) / (2 : ℚ) ^ (e - 52)) = m)
    (hc2 : (m : ℚ) * (2 : ℚ) ^ (e - 52) = c2) : fadd c s = c2 := by
  unfold fadd
  rw [round64_eval (c + s) e m hlo hhi hm, hc2]

/-- The step for the target 100 is the binary64 value nearest to 0.8. -/
theorem step_100 : StatsCounter.step 100 = 3602879701896397 / 4503599627370496 := by
  have h125 : round64 ((2000 : ℚ) / 16) = 125 := by
    rw [round64_eval ((2000 : ℚ) / 16) 6 8796093022208000 (by norm_num) (by norm_num)
      (roundHalfEven_eq _ _ (by norm_num) (by norm_num))]
    norm_num
  unfold StatsCounter.step fdiv
  simp only []
  rw [h125, round64_eval (((100 : Int) : ℚ) / 125) (-1) 7205759403792794 (by norm_num)
    (by norm_num) (roundHalfEven_eq _ _ (by norm_num) (by norm_num))]
  norm_num

/-- One firing of a running counter whose rounded sum stays below the target. -/
theorem counter_step (target : Int) (n : Nat) (c c2 s : ℚ)
    (h : (StatsCounter.animateCounter target n).current = c ∧
      (StatsCounter.animateCounter target n).cleared = false)
    (hs : StatsCounter.step target = s) (hadd : fadd c s = c2) (hlt : c2 < (target : ℚ)) :
    (StatsCounter.animateCounter target (n + 1)).current = c2 ∧
      (StatsCounter.animateCounter target (n + 1)).cleared = false := by
  obtain ⟨hc, hcl⟩ := h
  unfold StatsCounter.animateCounter at hc hcl ⊢
  rw [Function.iterate_succ_apply']
  generalize (StatsCounter.tick target)^[n] _ = u at hc hcl
  rw [tick_running _ u hcl, hc, hs, hadd, if_neg (not_le.mpr hlt)]
  exact ⟨rfl, rfl⟩

/-- One firing of a running counter whose rounded sum reaches the target. -/
theorem counter_last_step (target : Int) (n : Nat) (c c2 s : ℚ)
    (h : (StatsCounter.animateCounter target n).current = c ∧
      (StatsCounter.animateCounter target n).cleared = false)
    (hs : StatsCounter.step target = s) (hadd : fadd c s = c2) (hge : (target : ℚ) ≤ c2) :
    (StatsCounter.animateCounter target (n + 1)).cleared = true := by
  obtain ⟨hc, hcl⟩ := h
  unfold StatsCounter.animateCounter at hc hcl ⊢
  rw [Function.iterate_succ_apply']
  generalize (StatsCounter.tick target)^[n] _ = u at hc hcl
  rw [tick_running _ u hcl, hc, hs, hadd, if_pos hge]

set_option maxHeartbeats 4000000 in
/-- The run for the target 100, firing by firing in binary64: after 125 firings the
running total is `439804651110399 / 4398046511104` (just below 100), the interval is
still running and the value displayed last is 99; firing 126 clears the interval. -/
theorem animateCounter_100_trace :
    (StatsCounter.animateCounter 100 125).cleared = false ∧
    (StatsCounter.animateCounter 100 125).current = (439804651110399 / 4398046511104 : ℚ) ∧
    (StatsCounter.animateCounter 100 125).displayed.getLast? = some 99 ∧
    (StatsCounter.animateCounter 100 126).cleared = true := by
  have h0 : (StatsCounter.animateCounter 100 0).current = (0 : ℚ) ∧
      (StatsCounter.animateCounter 100 0).cleared = false := ⟨rfl, rfl⟩
  have h1 := counter_step 100 0 (0 : ℚ)
    (3602879701896397 / 4503599627370496 : ℚ) _ h0 step_100
    (fadd_eval _ _ _ (-1) (7205759403792794) (by norm_num) (by norm_num)
      (roundHalfEven_eq _ _ (by norm_num) (by norm_num)) (by norm_num)) (by norm_num)
  have h2 := counter_step 100 1 (3602879701896397 / 4503599627370496 : ℚ)
    (3602879701896397 / 2251799813685248 : ℚ) _ h1 step_100
    (fadd_eval _ _ _ (0) (7205759403792794) (by norm_num) (by norm_num)
      (roundHalfEven_eq _ _ (by norm_num) (by norm_num)) (by norm_num)) (by norm_num)
  have h3 := counter_step 100 2 (3602879701896397 / 2251799813685248 : ℚ)
    (1351079888211149 / 562949953421312 : ℚ) _ h2 step_100
    (fadd_eval _ _ _ (1) (5404319552844596) (by norm_num) (by norm_num)
      ((roundHalfEven_tie _ (5404319552844595) (by norm_num)).trans (by decide))
      (by norm_num)) (by norm_num)
  have h4 := counter_step 100 3 (1351079888211149 / 562949953421312 : ℚ)
    (3602879701896397 / 1125899906842624 : ℚ) _ h3 step_100
    (fadd_eval _ _ _ (1) (7205759403792794) (by norm_num) (by norm_num)
      ((roundHalfEven_tie _ (7205759403792794) (by norm_num)).trans (by decide))
      (by norm_num)) (by norm_num)
  have h5 := counter_step 100 4 (3602879701896397 / 1125899906842624 : ℚ)
    (4 : ℚ) _ h4 step_100
    (fadd_eval _ _ _ (2) (4503599627370496) (by norm_num) (by norm_num)
      (roundHalfEven_eq _ _ (by norm_num) (by norm_num)) (by norm_num)) (by norm_num)
  have h6 := counter_step 100 5 (4 : ℚ)
    (5404319552844595 / 1125899906842624 : ℚ) _ h5 step_100
    (fadd_eval _ _ _ (2) (5404319552844595) (by norm_num) (by norm_num)
      (roundHalfEven_eq _ _ (by norm_num) (by norm_num)) (by norm_num)) (by norm_num)
  have h7 := counter_step 100 6 (5404319552844595 / 1125899906842624 : ℚ)
    (3152519739159347 / 562949953421312 : ℚ) _ h6 step_100
    (fadd_eval _ _ _ (2) (6305039478318694) (by norm_num) (by norm_num)
      (roundHalfEven_eq _ _ (by norm_num) (by norm_num)) (by norm_num)) (by norm_num)
  have h8 := counter_step 100 7 (3152519739159347 / 562949953421312 : ℚ)
    (7205759403792793 / 1125899906842624 : ℚ) _ h7 step_100
    (fadd_eval _ _ _ (2) (7205759403792793) (by norm_num) (by norm_num)
      (roundHalfEven_eq _ _ (by norm_num) (by norm_num)) (by norm_num)) (by norm_num)
  have h9 := counter_step 100 8 (7205759403792793 / 1125899906842624 : ℚ)
    (2026619832316723 / 281474976710656 : ℚ) _ h8 step_100
    (fadd_eval _ _ _ (2) (8106479329266892) (by norm_num) (by norm_num)
      (roundHalfEven_eq _ _ (by norm_num) (by norm_num)) (by norm_num)) (by norm_num)
  have h10 := counter_step 100 9 (2026619832316723 / 281474976710656 : ℚ)
    (9007199254740991 / 1125899906842624 : ℚ) _ h9 step_100
    (fadd_eval _ _ _ (2) (9007199254740991) (by norm_num) (by norm_num)
      (roundHalfEven_eq _ _ (by norm_num) (by norm_num)) (by norm_num)) (by norm_num)
  have h11 := counter_step 100 10 (9007199254740991 / 1125899906842624 : ℚ)
    (4953959590107545 / 562949953421312 : ℚ) _ h10 step_100
    (fadd_eval _ _ _ (3) (4953959590107545) (by norm_num) (by norm_num)
      (roundHalfEven_eq _ _ (by norm_num) (by norm_num)) (by norm_num)) (by norm_num)
  have h12 := counter_step 100 11 (4953959590107545 / 562949953421312 : ℚ)
    (5404319552844595 / 562949953421312 : ℚ) _ h11 step_100
    (fadd_eval _ _ _ (3) (5404319552844595) (by norm_num) (by norm_num)
      (roundHalfEven_eq _ _ (by norm_num) (by norm_num)) (by norm_num)) (by norm_num)
  have h13 := counter_step 100 12 (5404319552844595 / 562949953421312 : ℚ)
    (5854679515581645 / 562949953421312 : ℚ) _ h12 step_100
    (fadd_eval _ _ _ (3) (5854679515581645) (by norm_num) (by norm_num)
      (roundHalfEven_eq _ _ (by norm_num) (by norm_num)) (by norm_num)) (by norm_num)
  have h14 := counter_step 100 13 (5854679515581645 / 562949953421312 : ℚ)
    (6305039478318695 / 562949953421312 : ℚ) _ h13 step_100
    (fadd_eval _ _ _ (3) (6305039478318695) (by norm_num) (by norm_num)
      (roundHalfEven_eq _ _ (by norm_num) (by norm_num)) (by norm_num)) (by norm_num)
  have h15 := counter_step 100 14 (6305039478318695 / 562949953421312 : ℚ)
    (6755399441055745 / 562949953421312 : ℚ) _ h14 step_100
    (fadd_eval _ _ _ (3) (6755399441055745) (by norm_num) (by norm_num)
      (roundHalfEven_eq _ _ (by norm_num) (by norm_num)) (by norm_num)) (by norm_num)
  have h16 := counter_step 100 15 (6755399441055745 / 562949953421312 : ℚ)
    (7205759403792795 / 562949953421312 : ℚ) _ h15 step_100
    (fadd_eval _ _ _ (3) (7205759403792795) (by norm_num) (by norm_num)
      (roundHalfEven_eq _ _ (by norm_num) (by norm_num)) (by norm_num)) (by norm_num)
  have h17 := counter_step 100 16 (7205759403792795 / 562949953421312 : ℚ)
    (7656119366529845 / 562949953421312 : ℚ) _ h16 step_100
    (fadd_eval _ _ _ (3) (7656119366529845) (by norm_num) (by norm_num)
      (roundHalfEven_eq _ _ (by norm_num) (by norm_num)) (by norm_num)) (by norm_num)
  have h18 := counter_step 100 17 (7656119366529845 / 562949953421312 : ℚ)
    (8106479329266895 / 562949953421312 : ℚ) _ h17 step_100
    (fadd_eval _ _ _ (3) (8106479329266895) (by norm_num) (by norm_num)
      (roundHalfEven_eq _ _ (by norm_num) (by norm_num)) (by norm_num)) (by norm_num)
  have h19 := counter_step 100 18 (8106479329266895 / 562949953421312 : ℚ)
    (8556839292003945 / 562949953421312 : ℚ) _ h18 step_100
    (fadd_eval _ _ _ (3) (8556839292003945) (by norm_num) (by norm_num)
      (roundHalfEven_eq _ _ (by norm_num) (by norm_num)) (by norm_num)) (by norm_num)
  have h20 := counter_step 100 19 (8556839292003945 / 562949953421312 : ℚ)
    (4503599627370497 / 281474976710656 : ℚ) _ h19 step_100
    (fadd_eval _ _ _ (4) (4503599627370497) (by norm_num) (by norm_num)
      (roundHalfEven_eq _ _ (by norm_num) (by norm_num)) (by norm_num)) (by norm_num)
  have h21 := counter_step 100 20 (4503599627370497 / 281474976710656 : ℚ)
    (2364389804369511 / 140737488355328 : ℚ) _ h20 step_100
    (fadd_eval _ _ _ (4) (4728779608739022) (by norm_num) (by norm_num)
      (roundHalfEven_eq _ _ (by norm_num) (by norm_num)) (by norm_num)) (by norm_num)
  have h22 := counter_step 100 21 (2364389804369511 / 140737488355328 : ℚ)
    (4953959590107547 / 281474976710656 : ℚ) _ h21 step_100
    (fadd_eval _ _ _ (4) (4953959590107547) (by norm_num) (by norm_num)
      (roundHalfEven_eq _ _ (by norm_num) (by norm_num)) (by norm_num)) (by norm_num)
  have h23 := counter_step 100 22 (4953959590107547 / 281474976710656 : ℚ)
    (647392446434509 / 35184372088832 : ℚ) _ h22 step_100
    (fadd_eval _ _ _ (4) (5179139571476072) (by norm_num) (by norm_num)
      (roundHalfEven_eq _ _ (by norm_num) (by norm_num)) (by norm_num)) (by norm_num)
  have h24 := counter_step 100 23 (647392446434509 / 35184372088832 : ℚ)
    (5404319552844597 / 281474976710656 : ℚ) _ h23 step_100
    (fadd_eval _ _ _ (4) (5404319552844597) (by norm_num) (by norm_num)
      (roundHalfEven_eq _ _ (by norm_num) (by norm_num)) (by norm_num)) (by norm_num)
  have h25 := counter_step 100 24 (5404319552844597 / 281474976710656 : ℚ)
    (2814749767106561 / 140737488355328 : ℚ) _ h24 step_100
    (fadd_eval _ _ _ (4) (5629499534213122) (by norm_num) (by norm_num)
      (roundHalfEven_eq _ _ (by norm_num) (by norm_num)) (by norm_num)) (by norm_num)
  have h26 := counter_step 100 25 (2814749767106561 / 140737488355328 : ℚ)
    (5854679515581647 / 281474976710656 : ℚ) _ h25 step_100
    (fadd_eval _ _ _ (4) (5854679515581647) (by norm_num) (by norm_num)
      (roundHalfEven_eq _ _ (by norm_num) (by norm_num)) (by norm_num)) (by norm_num)
  have h27 := counter_step 100 26 (5854679515581647 / 281474976710656 : ℚ)
    (1519964874237543 / 70368744177664 : ℚ) _ h26 step_100
    (fadd_eval _ _ _ (4) (6079859496950172) (by norm_num) (by norm_num)
      (roundHalfEven_eq _ _ (by norm_num) (by norm_num)) (by norm_num)) (by norm_num)
  have h28 := counter_step 100 27 (1519964874237543 / 70368744177664 : ℚ)
    (6305039478318697 / 281474976710656 : ℚ) _ h27 step_100
    (fadd_eval _ _ _ (4) (6305039478318697) (by norm_num) (by norm_num)
      (roundHalfEven_eq _ _ (by norm_num) (by norm_num)) (by norm_num)) (by norm_num)
  have h29 := counter_step 100 28 (6305039478318697 / 281474976710656 : ℚ)
    (3265109729843611 / 140737488355328 : ℚ) _ h28 step_100
    (fadd_eval _ _ _ (4) (6530219459687222) (by norm_num) (by norm_num)
      (roundHalfEven_eq _ _ (by norm_num) (by norm_num)) (by norm_num)) (by norm_num)
  have h30 := counter_step 100 29 (3265109729843611 / 140737488355328 : ℚ)
    (6755399441055747 / 281474976710656 : ℚ) _ h29 step_100
    (fadd_eval _ _ _ (4) (6755399441055747) (by norm_num) (by norm_num)
      (roundHalfEven_eq _ _ (by norm_num) (by norm_num)) (by norm_num)) (by norm_num)
  have h31 := counter_step 100 30 (6755399441055747 / 281474976710656 : ℚ)
    (436286213901517 / 17592186044416 : ℚ) _ h30 step_100
    (fadd_eval _ _ _ (4) (6980579422424272) (by norm_num) (by norm_num)
      (roundHalfEven_eq _ _ (by norm_num) (by norm_num)) (by norm_num)) (by norm_num)
  have h32 := counter_step 100 31 (436286213901517 / 17592186044416 : ℚ)
    (7205759403792797 / 281474976710656 : ℚ) _ h31 step_100
    (fadd_eval _ _ _ (4) (7205759403792797) (by norm_num) (by norm_num)
      (roundHalfEven_eq _ _ (by norm_num) (by norm_num)) (by norm_num)) (by norm_num)
  have h33 := counter_step 100 32 (7205759403792797 / 281474976710656 : ℚ)
    (3715469692580661 / 140737488355328 : ℚ) _ h32 step_100
    (fadd_eval _ _ _ (4) (7430939385161322) (by norm_num) (by norm_num)
      (roundHalfEven_eq _ _ (by norm_num) (by norm_num)) (by norm_num)) (by norm_num)
  have h34 := counter_step 100 33 (3715469692580661 / 140737488355328 : ℚ)
    (7656119366529847 / 281474976710656 : ℚ) _ h33 step_100
    (fadd_eval _ _ _ (4) (7656119366529847) (by norm_num) (by norm_num)
      (roundHalfEven_eq _ _ (by norm_num) (by norm_num)) (by norm_num)) (by norm_num)
  have h35 := counter_step 100 34 (7656119366529847 / 281474976710656 : ℚ)
    (1970324836974593 / 70368744177664 : ℚ) _ h34 step_100
    (fadd_eval _ _ _ (4) (7881299347898372) (by norm_num) (by norm_num)
      (roundHalfEven_eq _ _ (by norm_num) (by norm_num)) (by norm_num)) (by norm_num)
  have h36 := counter_step 100 35 (1970324836974593 / 70368744177664 : ℚ)
    (8106479329266897 / 281474976710656 : ℚ) _ h35 step_100
    (fadd_eval _ _ _ (4) (8106479329266897) (by norm_num) (by norm_num)
      (roundHalfEven_eq _ _ (by norm_num) (by norm_num)) (by norm_num)) (by norm_num)
  have h37 := counter_step 100 36 (8106479329266897 / 281474976710656 : ℚ)
    (4165829655317711 / 140737488355328 : ℚ) _ h36 step_100
    (fadd_eval _ _ _ (4) (8331659310635422) (by norm_num) (by norm_num)
      (roundHalfEven_eq _ _ (by norm_num) (by norm_num)) (by norm_num)) (by norm_num)
  have h38 := counter_step 100 37 (4165829655317711 / 140737488355328 : ℚ)
    (8556839292003947 / 281474976710656 : ℚ) _ h37 step_100
    (fadd_eval _ _ _ (4) (8556839292003947) (by norm_num) (by norm_num)
      (roundHalfEven_eq _ _ (by norm_num) (by norm_num)) (by norm_num)) (by norm_num)
  have h39 := counter_step 100 38 (8556839292003947 / 281474976710656 : ℚ)
    (1097752409171559 / 35184372088832 : ℚ) _ h38 step_100
    (fadd_eval _ _ _ (4) (8782019273372472) (by norm_num) (by norm_num)
      (roundHalfEven_eq _ _ (by norm_num) (by norm_num)) (by norm_num)) (by norm_num)
  have h40 := counter_step 100 39 (1097752409171559 / 35184372088832 : ℚ)
    (2251799813685249 / 70368744177664 : ℚ) _ h39 step_100
    (fadd_eval _ _ _ (5) (4503599627370498) (by norm_num) (by norm_num)
      (roundHalfEven_eq _ _ (by norm_num) (by norm_num)) (by norm_num)) (by norm_num)
  have h41 := counter_step 100 40 (2251799813685249 / 70368744177664 : ℚ)
    (577023702256845 / 17592186044416 : ℚ) _ h40 step_100
    (fadd_eval _ _ _ (5) (4616189618054760) (by norm_num) (by norm_num)
      (roundHalfEven_eq _ _ (by norm_num) (by norm_num)) (by norm_num)) (by norm_num)
  have h42 := counter_step 100 41 (577023702256845 / 17592186044416 : ℚ)
    (2364389804369511 / 70368744177664 : ℚ) _ h41 step_100
    (fadd_eval _ _ _ (5) (4728779608739022) (by norm_num) (by norm_num)
      (roundHalfEven_eq _ _ (by norm_num) (by norm_num)) (by norm_num)) (by norm_num)
  have h43 := counter_step 100 42 (2364389804369511 / 70368744177664 : ℚ)
    (1210342399855821 / 35184372088832 : ℚ) _ h42 step_100
    (fadd_eval _ _ _ (5) (4841369599423284) (by norm_num) (by norm_num)
      (roundHalfEven_eq _ _ (by norm_num) (by norm_num)) (by norm_num)) (by norm_num)
  have h44 := counter_step 100 43 (1210342399855821 / 35184372088832 : ℚ)
    (2476979795053773 / 70368744177664 : ℚ) _ h43 step_100
    (fadd_eval _ _ _ (5) (4953959590107546) (by norm_num) (by norm_num)
      (roundHalfEven_eq _ _ (by norm_num) (by norm_num)) (by norm_num)) (by norm_num)
  have h45 := counter_step 100 44 (2476979795053773 / 70368744177664 : ℚ)
    (36 : ℚ) _ h44 step_100
    (fadd_eval _ _ _ (5) (5066549580791808) (by norm_num) (by norm_num)
      (roundHalfEven_eq _ _ (by norm_num) (by norm_num)) (by norm_num)) (by norm_num)
  have h46 := counter_step 100 45 (36 : ℚ)
    (2589569785738035 / 70368744177664 : ℚ) _ h45 step_100
    (fadd_eval _ _ _ (5) (5179139571476070) (by norm_num) (by norm_num)
      (roundHalfEven_eq _ _ (by norm_num) (by norm_num)) (by norm_num)) (by norm_num)
  have h47 := counter_step 100 46 (2589569785738035 / 70368744177664 : ℚ)
    (1322932390540083 / 35184372088832 : ℚ) _ h46 step_100
    (fadd_eval _ _ _ (5) (5291729562160332) (by norm_num) (by norm_num)
      (roundHalfEven_eq _ _ (by norm_num) (by norm_num)) (by norm_num)) (by norm_num)
  have h48 := counter_step 100 47 (1322932390540083 / 35184372088832 : ℚ)
    (2702159776422297 / 70368744177664 : ℚ) _ h47 step_100
    (fadd_eval _ _ _ (5) (5404319552844594) (by norm_num) (by norm_num)
      (roundHalfEven_eq _ _ (by norm_num) (by norm_num)) (by norm_num)) (by norm_num)
  have h49 := counter_step 100 48 (2702159776422297 / 70368744177664 : ℚ)
    (689613692941107 / 17592186044416 : ℚ) _ h48 step_100
    (fadd_eval _ _ _ (5) (5516909543528856) (by norm_num) (by norm_num)
      (roundHalfEven_eq _ _ (by norm_num) (by norm_num)) (by norm_num)) (by norm_num)
  have h50 := counter_step 100 49 (689613692941107 / 17592186044416 : ℚ)
    (2814749767106559 / 70368744177664 : ℚ) _ h49 step_100
    (fadd_eval _ _ _ (5) (5629499534213118) (by norm_num) (by norm_num)
      (roundHalfEven_eq _ _ (by norm_num) (by norm_num)) (by norm_num)) (by norm_num)
  have h51 := counter_step 100 50 (2814749767106559 / 70368744177664 : ℚ)
    (1435522381224345 / 35184372088832 : ℚ) _ h50 step_100
    (fadd_eval _ _ _ (5) (5742089524897380) (by norm_num) (by norm_num)
      (roundHalfEven_eq _ _ (by norm_num) (by norm_num)) (by norm_num)) (by norm_num)
  have h52 := counter_step 100 51 (1435522381224345 / 35184372088832 : ℚ)
    (2927339757790821 / 70368744177664 : ℚ) _ h51 step_100
    (fadd_eval _ _ _ (5) (5854679515581642) (by norm_num) (by norm_num)
      (roundHalfEven_eq _ _ (by norm_num) (by norm_num)) (by norm_num)) (by norm_num)
  have h53 := counter_step 100 52 (2927339757790821 / 70368744177664 : ℚ)
    (372954344141619 / 8796093022208 : ℚ) _ h52 step_100
    (fadd_eval _ _ _ (5) (5967269506265904) (by norm_num) (by norm_num)
      (roundHalfEven_eq _ _ (by norm_num) (by norm_num)) (by norm_num)) (by norm_num)
  have h54 := counter_step 100 53 (372954344141619 / 8796093022208 : ℚ)
    (3039929748475083 / 70368744177664 : ℚ) _ h53 step_100
    (fadd_eval _ _ _ (5) (6079859496950166) (by norm_num) (by norm_num)
      (roundHalfEven_eq _ _ (by norm_num) (by norm_num)) (by norm_num)) (by norm_num)
  have h55 := counter_step 100 54 (3039929748475083 / 70368744177664 : ℚ)
    (1548112371908607 / 35184372088832 : ℚ) _ h54 step_100
    (fadd_eval _ _ _ (5) (6192449487634428) (by norm_num) (by norm_num)
      (roundHalfEven_eq _ _ (by norm_num) (by norm_num)) (by norm_num)) (by norm_num)
  have h56 := counter_step 100 55 (1548112371908607 / 35184372088832 : ℚ)
    (3152519739159345 / 70368744177664 : ℚ) _ h55 step_100
    (fadd_eval _ _ _ (5) (6305039478318690) (by norm_num) (by norm_num)
      (roundHalfEven_eq _ _ (by norm_num) (by norm_num)) (by norm_num)) (by norm_num)
  have h57 := counter_step 100 56 (3152519739159345 / 70368744177664 : ℚ)
    (802203683625369 / 17592186044416 : ℚ) _ h56 step_100
    (fadd_eval _ _ _ (5) (6417629469002952) (by norm_num) (by norm_num)
      (roundHalfEven_eq _ _ (by norm_num) (by norm_num)) (by norm_num)) (by norm_num)
  have h58 := counter_step 100 57 (802203683625369 / 17592186044416 : ℚ)
    (3265109729843607 / 70368744177664 : ℚ) _ h57 step_100
    (fadd_eval _ _ _ (5) (6530219459687214) (by norm_num) (by norm_num)
      (roundHalfEven_eq _ _ (by norm_num) (by norm_num)) (by norm_num)) (by norm_num)
  have h59 := counter_step 100 58 (3265109729843607 / 70368744177664 : ℚ)
    (1660702362592869 / 35184372088832 : ℚ) _ h58 step_100
    (fadd_eval _ _ _ (5) (6642809450371476) (by norm_num) (by norm_num)
      (roundHalfEven_eq _ _ (by norm_num) (by norm_num)) (by norm_num)) (by norm_num)
  have h60 := counter_step 100 59 (1660702362592869 / 35184372088832 : ℚ)
    (3377699720527869 / 70368744177664 : ℚ) _ h59 step_100
    (fadd_eval _ _ _ (5) (6755399441055738) (by norm_num) (by norm_num)
      (roundHalfEven_eq _ _ (by norm_num) (by norm_num)) (by norm_num)) (by norm_num)
  have h61 := counter_step 100 60 (3377699720527869 / 70368744177664 : ℚ)
    (214624669741875 / 4398046511104 : ℚ) _ h60 step_100
    (fadd_eval _ _ _ (5) (6867989431740000) (by norm_num) (by norm_num)
      (roundHalfEven_eq _ _ (by norm_num) (by norm_num)) (by norm_num)) (by norm_num)
  have h62 := counter_step 100 61 (214624669741875 / 4398046511104 : ℚ)
    (3490289711212131 / 70368744177664 : ℚ) _ h61 step_100
    (fadd_eval _ _ _ (5) (6980579422424262) (by norm_num) (by norm_num)
      (roundHalfEven_eq _ _ (by norm_num) (by norm_num)) (by norm_num)) (by norm_num)
  have h63 := counter_step 100 62 (3490289711212131 / 70368744177664 : ℚ)
    (1773292353277131 / 35184372088832 : ℚ) _ h62 step_100
    (fadd_eval _ _ _ (5) (7093169413108524) (by norm_num) (by norm_num)
      (roundHalfEven_eq _ _ (by norm_num) (by norm_num)) (by norm_num)) (by norm_num)
  have h64 := counter_step 100 63 (1773292353277131 / 35184372088832 : ℚ)
    (3602879701896393 / 70368744177664 : ℚ) _ h63 step_100
    (fadd_eval _ _ _ (5) (7205759403792786) (by norm_num) (by norm_num)
      (roundHalfEven_eq _ _ (by norm_num) (by norm_num)) (by norm_num)) (by norm_num)
  have h65 := counter_step 100 64 (3602879701896393 / 70368744177664 : ℚ)
    (914793674309631 / 17592186044416 : ℚ) _ h64 step_100
    (fadd_eval _ _ _ (5) (7318349394477048) (by norm_num) (by norm_num)
      (roundHalfEven_eq _ _ (by norm_num) (by norm_num)) (by norm_num)) (by norm_num)
  have h66 := counter_step 100 65 (914793674309631 / 17592186044416 : ℚ)
    (3715469692580655 / 70368744177664 : ℚ) _ h65 step_100
    (fadd_eval _ _ _ (5) (7430939385161310) (by norm_num) (by norm_num)
      (roundHalfEven_eq _ _ (by norm_num) (by norm_num)) (by norm_num)) (by norm_num)
  have h67 := counter_step 100 66 (3715469692580655 / 70368744177664 : ℚ)
    (1885882343961393 / 35184372088832 : ℚ) _ h66 step_100
    (fadd_eval _ _ _ (5) (7543529375845572) (by norm_num) (by norm_num)
      (roundHalfEven_eq _ _ (by norm_num) (by norm_num)) (by norm_num)) (by norm_num)
  have h68 := counter_step 100 67 (1885882343961393 / 35184372088832 : ℚ)
    (3828059683264917 / 70368744177664 : ℚ) _ h67 step_100
    (fadd_eval _ _ _ (5) (7656119366529834) (by norm_num) (by norm_num)
      (roundHalfEven_eq _ _ (by norm_num) (by norm_num)) (by norm_num)) (by norm_num)
  have h69 := counter_step 100 68 (3828059683264917 / 70368744177664 : ℚ)
    (485544334825881 / 8796093022208 : ℚ) _ h68 step_100
    (fadd_eval _ _ _ (5) (7768709357214096) (by norm_num) (by norm_num)
      (roundHalfEven_eq _ _ (by norm_num) (by norm_num)) (by norm_num)) (by norm_num)
  have h70 := counter_step 100 69 (485544334825881 / 8796093022208 : ℚ)
    (3940649673949179 / 70368744177664 : ℚ) _ h69 step_100
    (fadd_eval _ _ _ (5) (7881299347898358) (by norm_num) (by norm_num)
      (roundHalfEven_eq _ _ (by norm_num) (by norm_num)) (by norm_num)) (by norm_num)
  have h71 := counter_step 100 70 (3940649673949179 / 70368744177664 : ℚ)
    (1998472334645655 / 35184372088832 : ℚ) _ h70 step_100
    (fadd_eval _ _ _ (5) (7993889338582620) (by norm_num) (by norm_num)
      (roundHalfEven_eq _ _ (by norm_num) (by norm_num)) (by norm_num)) (by norm_num)
  have h72 := counter_step 100 71 (1998472334645655 / 35184372088832 : ℚ)
    (4053239664633441 / 70368744177664 : ℚ) _ h71 step_100
    (fadd_eval _ _ _ (5) (8106479329266882) (by norm_num) (by norm_num)
      (roundHalfEven_eq _ _ (by norm_num) (by norm_num)) (by norm_num)) (by norm_num)
  have h73 := counter_step 100 72 (4053239664633441 / 70368744177664 : ℚ)
    (1027383664993893 / 17592186044416 : ℚ) _ h72 step_100
    (fadd_eval _ _ _ (5) (8219069319951144) (by norm_num) (by norm_num)
      (roundHalfEven_eq _ _ (by norm_num) (by norm_num)) (by norm_num)) (by norm_num)
  have h74 := counter_step 100 73 (1027383664993893 / 17592186044416 : ℚ)
    (4165829655317703 / 70368744177664 : ℚ) _ h73 step_100
    (fadd_eval _ _ _ (5) (8331659310635406) (by norm_num) (by norm_num)
      (roundHalfEven_eq _ _ (by norm_num) (by norm_num)) (by norm_num)) (by norm_num)
  have h75 := counter_step 100 74 (4165829655317703 / 70368744177664 : ℚ)
    (2111062325329917 / 35184372088832 : ℚ) _ h74 step_100
    (fadd_eval _ _ _ (5) (8444249301319668) (by norm_num) (by norm_num)
      (roundHalfEven_eq _ _ (by norm_num) (by norm_num)) (by norm_num)) (by norm_num)
  have h76 := counter_step 100 75 (2111062325329917 / 35184372088832 : ℚ)
    (4278419646001965 / 70368744177664 : ℚ) _ h75 step_100
    (fadd_eval _ _ _ (5) (8556839292003930) (by norm_num) (by norm_num)
      (roundHalfEven_eq _ _ (by norm_num) (by norm_num)) (by norm_num)) (by norm_num)
  have h77 := counter_step 100 76 (4278419646001965 / 70368744177664 : ℚ)
    (135459832542003 / 2199023255552 : ℚ) _ h76 step_100
    (fadd_eval _ _ _ (5) (8669429282688192) (by norm_num) (by norm_num)
      (roundHalfEven_eq _ _ (by norm_num) (by norm_num)) (by norm_num)) (by norm_num)
  have h78 := counter_step 100 77 (135459832542003 / 2199023255552 : ℚ)
    (4391009636686227 / 70368744177664 : ℚ) _ h77 step_100
    (fadd_eval _ _ _ (5) (8782019273372454) (by norm_num) (by norm_num)
      (roundHalfEven_eq _ _ (by norm_num) (by norm_num)) (by norm_num)) (by norm_num)
  have h79 := counter_step 100 78 (4391009636686227 / 70368744177664 : ℚ)
    (2223652316014179 / 35184372088832 : ℚ) _ h78 step_100
    (fadd_eval _ _ _ (5) (8894609264056716) (by norm_num) (by norm_num)
      (roundHalfEven_eq _ _ (by norm_num) (by norm_num)) (by norm_num)) (by norm_num)
  have h80 := counter_step 100 79 (2223652316014179 / 35184372088832 : ℚ)
    (4503599627370489 / 70368744177664 : ℚ) _ h79 step_100
    (fadd_eval _ _ _ (5) (9007199254740978) (by norm_num) (by norm_num)
      (roundHalfEven_eq _ _ (by norm_num) (by norm_num)) (by norm_num)) (by norm_num)
  have h81 := counter_step 100 80 (4503599627370489 / 70368744177664 : ℚ)
    (1139973655678155 / 17592186044416 : ℚ) _ h80 step_100
    (fadd_eval _ _ _ (6) (4559894622712620) (by norm_num) (by norm_num)
      (roundHalfEven_eq _ _ (by norm_num) (by norm_num)) (by norm_num)) (by norm_num)
  have h82 := counter_step 100 81 (1139973655678155 / 17592186044416 : ℚ)
    (4616189618054751 / 70368744177664 : ℚ) _ h81 step_100
    (fadd_eval _ _ _ (6) (4616189618054751) (by norm_num) (by norm_num)
      (roundHalfEven_eq _ _ (by norm_num) (by norm_num)) (by norm_num)) (by norm_num)
  have h83 := counter_step 100 82 (4616189618054751 / 70368744177664 : ℚ)
    (2336242306698441 / 35184372088832 : ℚ) _ h82 step_100
    (fadd_eval _ _ _ (6) (4672484613396882) (by norm_num) (by norm_num)
      (roundHalfEven_eq _ _ (by norm_num) (by norm_num)) (by norm_num)) (by norm_num)
  have h84 := counter_step 100 83 (2336242306698441 / 35184372088832 : ℚ)
    (4728779608739013 / 70368744177664 : ℚ) _ h83 step_100
    (fadd_eval _ _ _ (6) (4728779608739013) (by norm_num) (by norm_num)
      (roundHalfEven_eq _ _ (by norm_num) (by norm_num)) (by norm_num)) (by norm_num)
  have h85 := counter_step 100 84 (4728779608739013 / 70368744177664 : ℚ)
    (598134325510143 / 8796093022208 : ℚ) _ h84 step_100
    (fadd_eval _ _ _ (6) (4785074604081144) (by norm_num) (by norm_num)
      (roundHalfEven_eq _ _ (by norm_num) (by norm_num)) (by norm_num)) (by norm_num)
  have h86 := counter_step 100 85 (598134325510143 / 8796093022208 : ℚ)
    (4841369599423275 / 70368744177664 : ℚ) _ h85 step_100
    (fadd_eval _ _ _ (6) (4841369599423275) (by norm_num) (by norm_num)
      (roundHalfEven_eq _ _ (by norm_num) (by norm_num)) (by norm_num)) (by norm_num)
  have h87 := counter_step 100 86 (4841369599423275 / 70368744177664 : ℚ)
    (2448832297382703 / 35184372088832 : ℚ) _ h86 step_100
    (fadd_eval _ _ _ (6) (4897664594765406) (by norm_num) (by norm_num)
      (roundHalfEven_eq _ _ (by norm_num) (by norm_num)) (by norm_num)) (by norm_num)
  have h88 := counter_step 100 87 (2448832297382703 / 35184372088832 : ℚ)
    (4953959590107537 / 70368744177664 : ℚ) _ h87 step_100
    (fadd_eval _ _ _ (6) (4953959590107537) (by norm_num) (by norm_num)
      (roundHalfEven_eq _ _ (by norm_num) (by norm_num)) (by norm_num)) (by norm_num)
  have h89 := counter_step 100 88 (4953959590107537 / 70368744177664 : ℚ)
    (1252563646362417 / 17592186044416 : ℚ) _ h88 step_100
    (fadd_eval _ _ _ (6) (5010254585449668) (by norm_num) (by norm_num)
      (roundHalfEven_eq _ _ (by norm_num) (by norm_num)) (by norm_num)) (by norm_num)
  have h90 := counter_step 100 89 (1252563646362417 / 17592186044416 : ℚ)
    (5066549580791799 / 70368744177664 : ℚ) _ h89 step_100
    (fadd_eval _ _ _ (6) (5066549580791799) (by norm_num) (by norm_num)
      (roundHalfEven_eq _ _ (by norm_num) (by norm_num)) (by norm_num)) (by norm_num)
  have h91 := counter_step 100 90 (5066549580791799 / 70368744177664 : ℚ)
    (2561422288066965 / 35184372088832 : ℚ) _ h90 step_100
    (fadd_eval _ _ _ (6) (5122844576133930) (by norm_num) (by norm_num)
      (roundHalfEven_eq _ _ (by norm_num) (by norm_num)) (by norm_num)) (by norm_num)
  have h92 := counter_step 100 91 (2561422288066965 / 35184372088832 : ℚ)
    (5179139571476061 / 70368744177664 : ℚ) _ h91 step_100
    (fadd_eval _ _ _ (6) (5179139571476061) (by norm_num) (by norm_num)
      (roundHalfEven_eq _ _ (by norm_num) (by norm_num)) (by norm_num)) (by norm_num)
  have h93 := counter_step 100 92 (5179139571476061 / 70368744177664 : ℚ)
    (327214660426137 / 4398046511104 : ℚ) _ h92 step_100
    (fadd_eval _ _ _ (6) (5235434566818192) (by norm_num) (by norm_num)
      (roundHalfEven_eq _ _ (by norm_num) (by norm_num)) (by norm_num)) (by norm_num)
  have h94 := counter_step 100 93 (327214660426137 / 4398046511104 : ℚ)
    (5291729562160323 / 70368744177664 : ℚ) _ h93 step_100
    (fadd_eval _ _ _ (6) (5291729562160323) (by norm_num) (by norm_num)
      (roundHalfEven_eq _ _ (by norm_num) (by norm_num)) (by norm_num)) (by norm_num)
  have h95 := counter_step 100 94 (5291729562160323 / 70368744177664 : ℚ)
    (2674012278751227 / 35184372088832 : ℚ) _ h94 step_100
    (fadd_eval _ _ _ (6) (5348024557502454) (by norm_num) (by norm_num)
      (roundHalfEven_eq _ _ (by norm_num) (by norm_num)) (by norm_num)) (by norm_num)
  have h96 := counter_step 100 95 (2674012278751227 / 35184372088832 : ℚ)
    (5404319552844585 / 70368744177664 : ℚ) _ h95 step_100
    (fadd_eval _ _ _ (6) (5404319552844585) (by norm_num) (by norm_num)
      (roundHalfEven_eq _ _ (by norm_num) (by norm_num)) (by norm_num)) (by norm_num)
  have h97 := counter_step 100 96 (5404319552844585 / 70368744177664 : ℚ)
    (1365153637046679 / 17592186044416 : ℚ) _ h96 step_100
    (fadd_eval _ _ _ (6) (5460614548186716) (by norm_num) (by norm_num)
      (roundHalfEven_eq _ _ (by norm_num) (by norm_num)) (by norm_num)) (by norm_num)
  have h98 := counter_step 100 97 (1365153637046679 / 17592186044416 : ℚ)
    (5516909543528847 / 70368744177664 : ℚ) _ h97 step_100
    (fadd_eval _ _ _ (6) (5516909543528847) (by norm_num) (by norm_num)
      (roundHalfEven_eq _ _ (by norm_num) (by norm_num)) (by norm_num)) (by norm_num)
  have h99 := counter_step 100 98 (5516909543528847 / 70368744177664 : ℚ)
    (2786602269435489 / 35184372088832 : ℚ) _ h98 step_100
    (fadd_eval _ _ _ (6) (5573204538870978) (by norm_num) (by norm_num)
      (roundHalfEven_eq _ _ (by norm_num) (by norm_num)) (by norm_num)) (by norm_num)
  have h100 := counter_step 100 99 (2786602269435489 / 35184372088832 : ℚ)
    (5629499534213109 / 70368744177664 : ℚ) _ h99 step_100
    (fadd_eval _ _ _ (6) (5629499534213109) (by norm_num) (by norm_num)
      (roundHalfEven_eq _ _ (by norm_num) (by norm_num)) (by norm_num)) (by norm_num)
  have h101 := counter_step 100 100 (5629499534213109 / 70368744177664 : ℚ)
    (710724316194405 / 8796093022208 : ℚ) _ h100 step_100
    (fadd_eval _ _ _ (6) (5685794529555240) (by norm_num) (by norm_num)
      (roundHalfEven_eq _ _ (by norm_num) (by norm_num)) (by norm_num)) (by norm_num)
  have h102 := counter_step 100 101 (710724316194405 / 8796093022208 : ℚ)
    (5742089524897371 / 70368744177664 : ℚ) _ h101 step_100
    (fadd_eval _ _ _ (6) (5742089524897371) (by norm_num) (by norm_num)
      (roundHalfEven_eq _ _ (by norm_num) (by norm_num)) (by norm_num)) (by norm_num)
  have h103 := counter_step 100 102 (5742089524897371 / 70368744177664 : ℚ)
    (2899192260119751 / 35184372088832 : ℚ) _ h102 step_100
    (fadd_eval _ _ _ (6) (5798384520239502) (by norm_num) (by norm_num)
      (roundHalfEven_eq _ _ (by norm_num) (by norm_num)) (by norm_num)) (by norm_num)
  have h104 := counter_step 100 103 (2899192260119751 / 35184372088832 : ℚ)
    (5854679515581633 / 70368744177664 : ℚ) _ h103 step_100
    (fadd_eval _ _ _ (6) (5854679515581633) (by norm_num) (by norm_num)
      (roundHalfEven_eq _ _ (by norm_num) (by norm_num)) (by norm_num)) (by norm_num)
  have h105 := counter_step 100 104 (5854679515581633 / 70368744177664 : ℚ)
    (1477743627730941 / 17592186044416 : ℚ) _ h104 step_100
    (fadd_eval _ _ _ (6) (5910974510923764) (by norm_num) (by norm_num)
      (roundHalfEven_eq _ _ (by norm_num) (by norm_num)) (by norm_num)) (by norm_num)
  have h106 := counter_step 100 105 (1477743627730941 / 17592186044416 : ℚ)
    (5967269506265895 / 70368744177664 : ℚ) _ h105 step_100
    (fadd_eval _ _ _ (6) (5967269506265895) (by norm_num) (by norm_num)
      (roundHalfEven_eq _ _ (by norm_num) (by norm_num)) (by norm_num)) (by norm_num)
  have h107 := counter_step 100 106 (5967269506265895 / 70368744177664 : ℚ)
    (3011782250804013 / 35184372088832 : ℚ) _ h106 step_100
    (fadd_eval _ _ _ (6) (6023564501608026) (by norm_num) (by norm_num)
      (roundHalfEven_eq _ _ (by norm_num) (by norm_num)) (by norm_num)) (by norm_num)
  have h108 := counter_step 100 107 (3011782250804013 / 35184372088832 : ℚ)
    (6079859496950157 / 70368744177664 : ℚ) _ h107 step_100
    (fadd_eval _ _ _ (6) (6079859496950157) (by norm_num) (by norm_num)
      (roundHalfEven_eq _ _ (by norm_num) (by norm_num)) (by norm_num)) (by norm_num)
  have h109 := counter_step 100 108 (6079859496950157 / 70368744177664 : ℚ)
    (95877413942067 / 1099511627776 : ℚ) _ h108 step_100
    (fadd_eval _ _ _ (6) (6136154492292288) (by norm_num) (by norm_num)
      (roundHalfEven_eq _ _ (by norm_num) (by norm_num)) (by norm_num)) (by norm_num)
  have h110 := counter_step 100 109 (95877413942067 / 1099511627776 : ℚ)
    (6192449487634419 / 70368744177664 : ℚ) _ h109 step_100
    (fadd_eval _ _ _ (6) (6192449487634419) (by norm_num) (by norm_num)
      (roundHalfEven_eq _ _ (by norm_num) (by norm_num)) (by norm_num)) (by norm_num)
  have h111 := counter_step 100 110 (6192449487634419 / 70368744177664 : ℚ)
    (3124372241488275 / 35184372088832 : ℚ) _ h110 step_100
    (fadd_eval _ _ _ (6) (6248744482976550) (by norm_num) (by norm_num)
      (roundHalfEven_eq _ _ (by norm_num) (by norm_num)) (by norm_num)) (by norm_num)
  have h112 := counter_step 100 111 (3124372241488275 / 35184372088832 : ℚ)
    (6305039478318681 / 70368744177664 : ℚ) _ h111 step_100
    (fadd_eval _ _ _ (6) (6305039478318681) (by norm_num) (by norm_num)
      (roundHalfEven_eq _ _ (by norm_num) (by norm_num)) (by norm_num)) (by norm_num)
  have h113 := counter_step 100 112 (6305039478318681 / 70368744177664 : ℚ)
    (1590333618415203 / 17592186044416 : ℚ) _ h112 step_100
    (fadd_eval _ _ _ (6) (6361334473660812) (by norm_num) (by norm_num)
      (roundHalfEven_eq _ _ (by norm_num) (by norm_num)) (by norm_num)) (by norm_num)
  have h114 := counter_step 100 113 (1590333618415203 / 17592186044416 : ℚ)
    (6417629469002943 / 70368744177664 : ℚ) _ h113 step_100
    (fadd_eval _ _ _ (6) (6417629469002943) (by norm_num) (by norm_num)
      (roundHalfEven_eq _ _ (by norm_num) (by norm_num)) (by norm_num)) (by norm_num)
  have h115 := counter_step 100 114 (6417629469002943 / 70368744177664 : ℚ)
    (3236962232172537 / 35184372088832 : ℚ) _ h114 step_100
    (fadd_eval _ _ _ (6) (6473924464345074) (by norm_num) (by norm_num)
      (roundHalfEven_eq _ _ (by norm_num) (by norm_num)) (by norm_num)) (by norm_num)
  have h116 := counter_step 100 115 (3236962232172537 / 35184372088832 : ℚ)
    (6530219459687205 / 70368744177664 : ℚ) _ h115 step_100
    (fadd_eval _ _ _ (6) (6530219459687205) (by norm_num) (by norm_num)
      (roundHalfEven_eq _ _ (by norm_num) (by norm_num)) (by norm_num)) (by norm_num)
  have h117 := counter_step 100 116 (6530219459687205 / 70368744177664 : ℚ)
    (823314306878667 / 8796093022208 : ℚ) _ h116 step_100
    (fadd_eval _ _ _ (6) (6586514455029336) (by norm_num) (by norm_num)
      (roundHalfEven_eq _ _ (by norm_num) (by norm_num)) (by norm_num)) (by norm_num)
  have h118 := counter_step 100 117 (823314306878667 / 8796093022208 : ℚ)
    (6642809450371467 / 70368744177664 : ℚ) _ h117 step_100
    (fadd_eval _ _ _ (6) (6642809450371467) (by norm_num) (by norm_num)
      (roundHalfEven_eq _ _ (by norm_num) (by norm_num)) (by norm_num)) (by norm_num)
  have h119 := counter_step 100 118 (6642809450371467 / 70368744177664 : ℚ)
    (3349552222856799 / 35184372088832 : ℚ) _ h118 step_100
    (fadd_eval _ _ _ (6) (6699104445713598) (by norm_num) (by norm_num)
      (roundHalfEven_eq _ _ (by norm_num) (by norm_num)) (by norm_num)) (by norm_num)
  have h120 := counter_step 100 119 (3349552222856799 / 35184372088832 : ℚ)
    (6755399441055729 / 70368744177664 : ℚ) _ h119 step_100
    (fadd_eval _ _ _ (6) (6755399441055729) (by norm_num) (by norm_num)
      (roundHalfEven_eq _ _ (by norm_num) (by norm_num)) (by norm_num)) (by norm_num)
  have h121 := counter_step 100 120 (6755399441055729 / 70368744177664 : ℚ)
    (1702923609099465 / 17592186044416 : ℚ) _ h120 step_100
    (fadd_eval _ _ _ (6) (6811694436397860) (by norm_num) (by norm_num)
      (roundHalfEven_eq _ _ (by norm_num) (by norm_num)) (by norm_num)) (by norm_num)
  have h122 := counter_step 100 121 (1702923609099465 / 17592186044416 : ℚ)
    (6867989431739991 / 70368744177664 : ℚ) _ h121 step_100
    (fadd_eval _ _ _ (6) (6867989431739991) (by norm_num) (by norm_num)
      (roundHalfEven_eq _ _ (by norm_num) (by norm_num)) (by norm_num)) (by norm_num)
  have h123 := counter_step 100 122 (6867989431739991 / 70368744177664 : ℚ)
    (3462142213541061 / 35184372088832 : ℚ) _ h122 step_100
    (fadd_eval _ _ _ (6) (6924284427082122) (by norm_num) (by norm_num)
      (roundHalfEven_eq _ _ (by norm_num) (by norm_num)) (by norm_num)) (by norm_num)
  have h124 := counter_step 100 123 (3462142213541061 / 35184372088832 : ℚ)
    (6980579422424253 / 70368744177664 : ℚ) _ h123 step_100
    (fadd_eval _ _ _ (6) (6980579422424253) (by norm_num) (by norm_num)
      (roundHalfEven_eq _ _ (by norm_num) (by norm_num)) (by norm_num)) (by norm_num)
  have h125 := counter_step 100 124 (6980579422424253 / 70368744177664 : ℚ)
    (439804651110399 / 4398046511104 : ℚ) _ h124 step_100
    (fadd_eval _ _ _ (6) (7036874417766384) (by norm_num) (by norm_num)
      (roundHalfEven_eq _ _ (by norm_num) (by norm_num)) (by norm_num)) (by norm_num)
  have h126 := counter_last_step 100 125 (439804651110399 / 4398046511104 : ℚ)
    (7093169413108515 / 70368744177664 : ℚ) _ h125 step_100
    (fadd_eval _ _ _ (6) (7093169413108515) (by norm_num) (by norm_num)
      (roundHalfEven_eq _ _ (by norm_num) (by norm_num)) (by norm_num)) (by norm_num)
  have hfloor : ⌊(439804651110399 / 4398046511104 : ℚ)⌋ = 99 :=
    Int.floor_eq_iff.mpr ⟨by norm_num, by norm_num⟩
  refine ⟨h125.2, h125.1, ?_, h126⟩
  rw [animateCounter_displays_floor 100 124 h124.2, h125.1, hfloor]
  simp

/-- C9: for a positive integer target, `animateCounter` (step `target / (2000 / 16)`
added every 16 ms in binary64 arithmetic) displays integers only, each the floor of
the running total at that firing; the displayed sequence is non-decreasing; and there
is a firing `N ≤ 126` before which the interval runs, one value per firing, and from
which on the interval is cleared, the total is the target, the last displayed value
is exactly the target and nothing more is displayed. -/
theorem animateCounter_monotone_ends_at_target (target : Int) (ht : 0 < target) :
    (∀ n, List.Pairwise (fun a b : Int => a ≤ b)
      (StatsCounter.animateCounter target n).displayed) ∧
    (∀ n, (StatsCounter.animateCounter target n).cleared = false →
      (StatsCounter.animateCounter target (n + 1)).displayed =
        (StatsCounter.animateCounter target n).displayed ++
          [⌊(StatsCounter.animateCounter target (n + 1)).current⌋]) ∧
    ∃ N, 0 < N ∧ N ≤ 126 ∧
      (∀ n, n < N →
        ((StatsCounter.animateCounter target n).cleared = false ∧
         (StatsCounter.animateCounter target n).displayed.length = n)) ∧
      (∀ n, N ≤ n →
        ((StatsCounter.animateCounter target n).cleared = true ∧
         (StatsCounter.animateCounter target n).current = (target : ℚ) ∧
         (StatsCounter.animateCounter target n).displayed.getLast? = some target ∧
         (StatsCounter.animateCounter target n).displayed.length = N ∧
         (StatsCounter.animateCounter target n).displayed
           = (StatsCounter.animateCounter target N).displayed)) := by
  have hT : (0 : ℚ) < (target : ℚ) := by exact_mod_cast ht
  refine ⟨fun n => (animateCounter_inv target ht n).2.2.1,
    fun n h => animateCounter_displays_floor target n h, ?_⟩
  have hex : ∃ n, (StatsCounter.animateCounter target n).cleared = true := by
    refine ⟨126, ?_⟩
    by_contra hnot
    have hf : (StatsCounter.animateCounter target 126).cleared = false := by
      simpa using hnot
    obtain ⟨_, hlt, hgrow, _⟩ := (animateCounter_inv target ht 126).1 hf
    have : ((126 : ℕ) : ℚ) * (target : ℚ) / 126 = (target : ℚ) := by
      push_cast
      ring
    rw [this] at hgrow
    linarith
  have hN := Nat.find_spec hex
  have hmin : ∀ n, n < Nat.find hex → (StatsCounter.animateCounter target n).cleared = false := by
    intro n hn
    have := Nat.find_min hex hn
    simpa using this
  have hle : Nat.find hex ≤ 126 := by
    apply Nat.find_min'
    by_contra hnot
    have hf : (StatsCounter.animateCounter target 126).cleared = false := by
      simpa using hnot
    obtain ⟨_, hlt, hgrow, _⟩ := (animateCounter_inv target ht 126).1 hf
    have : ((126 : ℕ) : ℚ) * (target : ℚ) / 126 = (target : ℚ) := by
      push_cast
      ring
    rw [this] at hgrow
    linarith
  have hpos : 0 < Nat.find hex := by
    rcases Nat.eq_zero_or_pos (Nat.find hex) with h0 | h0
    · rw [h0] at hN
      simp [StatsCounter.animateCounter] at hN
    · exact h0
  have hlenN : (StatsCounter.animateCounter target (Nat.find hex)).displayed.length
      = Nat.find hex := by
    obtain ⟨m, hm⟩ : ∃ m, Nat.find hex = m + 1 := ⟨Nat.find hex - 1, by omega⟩
    have hmf := hmin m (by omega)
    have hml := ((animateCounter_inv target ht m).1 hmf).2.2.2
    rw [hm, animateCounter_displays_floor target m hmf]
    simp [hml]
  refine ⟨Nat.find hex, hpos, hle, ?_, ?_⟩
  · intro n hn
    exact ⟨hmin n hn, ((animateCounter_inv target ht n).1 (hmin n hn)).2.2.2⟩
  · intro n hn
    have hst := animateCounter_stable target (Nat.find hex) hN n hn
    rw [hst]
    obtain ⟨hc, hl⟩ := (animateCounter_inv target ht (Nat.find hex)).2.1 hN
    exact ⟨hN, hc, hl, hlenN, rfl⟩

/-- Witness of C9: the target 100 is positive. In binary64 the running total after
125 firings is just below 100, so the interval is still running and shows 99; firing
126 clears it and shows exactly 100, the displayed values are non-decreasing, and
later periods display nothing more. -/
theorem animateCounter_monotone_ends_at_target_witness :
    (0 : Int) < 100 ∧
    List.Pairwise (fun a b : Int => a ≤ b) (StatsCounter.animateCounter 100 126).displayed ∧
    (StatsCounter.animateCounter 100 125).cleared = false ∧
    (StatsCounter.animateCounter 100 125).displayed.getLast? = some 99 ∧
    (StatsCounter.animateCounter 100 126).cleared = true ∧
    (StatsCounter.animateCounter 100 126).displayed.getLast? = some 100 ∧
    (StatsCounter.animateCounter 100 126).displayed.length = 126 ∧
    (StatsCounter.animateCounter 100 200).displayed
      = (StatsCounter.animateCounter 100 126).displayed := by
  obtain ⟨hsorted, _, N, _, hle, _, hafter⟩ :=
    animateCounter_monotone_ends_at_target 100 (by decide)
  have htr := animateCounter_100_trace
  have hN : N = 126 := by
    by_contra hne
    have h125 := (hafter 125 (by omega)).1
    rw [htr.1] at h125
    exact absurd h125 (by simp)
  subst hN
  exact ⟨by decide, hsorted 126, htr.1, htr.2.2.1, (hafter 126 le_rfl).1,
    (hafter 126 le_rfl).2.2.1, (hafter 126 le_rfl).2.2.2.1, (hafter 200 (by decide)).2.2.2.2⟩

theorem showNotification_notifications (message type : JSString) (q : Page)
    (h : q.notifications.length ≤ 1) :
    (FormManager.showNotification message type q).notifications =
      [{ id := q.nextId, type := type, message := message, opacity := none,
         transform := none }] := by
  unfold FormManager.showNotification FormManager.addNotificationStyles
  cases hn : q.notifications with
  | nil => simp only []; split <;> simp [hn]
  | cons a l =>
    have hl : l = [] := by
      rw [hn] at h
      simp at h
      exact h
    subst hl
    simp only []; split <;> simp

theorem showNotification_nextId (message type : JSString) (q : Page) :
    (FormManager.showNotification message type q).nextId = q.nextId + 1 := by
  unfold FormManager.showNotification FormManager.addNotificationStyles
  cases hn : q.notifications <;> simp only [] <;> split <;> simp

theorem showNotification_timers (message type : JSString) (q : Page) :
    (FormManager.showNotification message type q).timers =
      q.timers ++ [Timer.autoRemove q.nextId, Timer.animateIn q.nextId] := by
  unfold FormManager.showNotification FormManager.addNotificationStyles
  cases hn : q.notifications <;> simp only [] <;> split <;> simp

theorem showNotification_inv (message type : JSString) (q : Page) (h : q.NotificationInv) :
    (FormManager.showNotification message type q).NotificationInv := by
  obtain ⟨h1, _, h3⟩ := h
  refine ⟨?_, ?_, ?_⟩
  · rw [showNotification_notifications message type q h1]; simp
  · rw [showNotification_notifications message type q h1, showNotification_nextId]
    intro n hn
    simp at hn
    subst hn
    simp
  · rw [showNotification_timers, showNotification_nextId]
    intro t ht
    rw [List.mem_append] at ht
    rcases ht with ht | ht
    · have := h3 t ht
      omega
    · simp at ht
      rcases ht with rfl | rfl <;> simp [Timer.id]

theorem removeNotification_inv (id : Nat) (q : Page) (h : q.NotificationInv) :
    (q.removeNotification id).NotificationInv := by
  obtain ⟨h1, h2, h3⟩ := h
  refine ⟨?_, ?_, h3⟩
  · exact le_trans (List.length_filter_le _ _) h1
  · intro n hn
    exact h2 n (List.mem_of_mem_filter hn)

theorem setNotificationStyle_inv (id : Nat) (o t : JSString) (q : Page)
    (h : q.NotificationInv) : (q.setNotificationStyle id o t).NotificationInv := by
  obtain ⟨h1, h2, h3⟩ := h
  refine ⟨?_, ?_, h3⟩
  · simpa [Page.setNotificationStyle] using h1
  · intro n hn
    simp only [Page.setNotificationStyle, List.mem_map] at hn
    obtain ⟨m, hm, rfl⟩ := hn
    have := h2 m hm
    split <;> simpa using this

theorem fireTimer_inv (t : Timer) (q : Page) (h : q.NotificationInv) :
    (q.fireTimer t).NotificationInv := by
  unfold Page.fireTimer
  split
  · rename_i hmem
    have herase : ({ q with timers := q.timers.erase t } : Page).NotificationInv :=
      ⟨h.1, h.2.1, fun u hu => h.2.2 u (List.mem_of_mem_erase hu)⟩
    cases t with
    | autoRemove id =>
      simp only []
      split
      · have hs := setNotificationStyle_inv id (js "0") (js "translateX(100%)") _ herase
        refine ⟨hs.1, hs.2.1, ?_⟩
        intro u hu
        simp only [List.mem_append, List.mem_singleton] at hu
        rcases hu with hu | rfl
        · exact hs.2.2 u hu
        · exact (h.2.2 (Timer.autoRemove id) hmem : id < q.nextId)
      · exact herase
    | finalRemove id => exact removeNotification_inv id _ herase
    | animateIn id => exact setNotificationStyle_inv id _ _ _ herase
  · exact h

theorem step_inv (q : Page) (e : PageEvent) (h : q.NotificationInv) :
    (q.step e).NotificationInv := by
  cases e with
  | showNotification message type => exact showNotification_inv message type q h
  | close id => exact removeNotification_inv id q h
  | fire t => exact fireTimer_inv t q h

theorem run_inv (events : List PageEvent) (q : Page) (h : q.NotificationInv) :
    (q.run events).NotificationInv := by
  induction events generalizing q with
  | nil => exact h
  | cons e es ih => exact ih (q.step e) (step_inv q e h)

/-- C10: from a page with no notification and no pending notification timer, after
every sequence of `showNotification` calls, clicks on close controls and timer
firings the page holds at most one notification; right after a further
`showNotification` it holds exactly one, the newly created element; and neither the
firing of a timer that was pending before that call (a timer of an earlier
notification) nor a close click on an earlier element removes or alters it. -/
theorem notification_at_most_one (p : Page) (hn : p.notifications = []) (ht : p.timers = [])
    (events : List PageEvent) :
    (p.run events).notifications.length ≤ 1 ∧
    (∀ message type : JSString,
      (FormManager.showNotification message type (p.run events)).notifications =
        [{ id := (p.run events).nextId, type := type, message := message, opacity := none,
           transform := none }]) ∧
    (∀ (message type : JSString) (t : Timer), t ∈ (p.run events).timers →
      ((FormManager.showNotification message type (p.run events)).fireTimer t).notifications =
        (FormManager.showNotification message type (p.run events)).notifications) ∧
    (∀ (message type : JSString) (id : Nat), id < (p.run events).nextId →
      ((FormManager.showNotification message type (p.run events)).removeNotification
          id).notifications =
        (FormManager.showNotification message type (p.run events)).notifications) := by
  have hinv : (p.run events).NotificationInv :=
    run_inv events p ⟨by simp [hn], by simp [hn], by simp [ht]⟩
  generalize p.run events = q at hinv
  have hshow := fun message type => showNotification_notifications message type q hinv.1
  refine ⟨hinv.1, hshow, ?_, ?_⟩
  · intro message type t htm
    have hid : t.id < q.nextId := hinv.2.2 t htm
    unfold Page.fireTimer
    split
    · cases t with
      | autoRemove id =>
        have hne : q.nextId ≠ id := by simp only [Timer.id] at hid; omega
        simp [hshow, hne]
      | finalRemove id =>
        have hne : q.nextId ≠ id := by simp only [Timer.id] at hid; omega
        simp [hshow, hne, Page.removeNotification]
      | animateIn id =>
        have hne : q.nextId ≠ id := by simp only [Timer.id] at hid; omega
        simp [hshow, hne, Page.setNotificationStyle]
    · rfl
  · intro message type id hid
    have hne : q.nextId ≠ id := by omega
    simp [hshow, hne, Page.removeNotification]

/-- Witness of C10: on a fresh page, a second notification created before the first
auto-dismisses leaves exactly one notification, and the first one's timers do not
remove it. -/
theorem notification_at_most_one_witness :
    (Page.fresh ⟨[], [], [], []⟩).notifications = [] ∧
    (Page.fresh ⟨[], [], [], []⟩).timers = [] ∧
    ((Page.fresh ⟨[], [], [], []⟩).run
      [PageEvent.showNotification (js "first") (js "success"),
       PageEvent.showNotification (js "second") (js "error"),
       PageEvent.fire (Timer.autoRemove 0),
       PageEvent.fire (Timer.finalRemove 0)]).notifications.length ≤ 1 :=
  ⟨rfl, rfl,
    (notification_at_most_one (Page.fresh ⟨[], [], [], []⟩) rfl rfl
      [PageEvent.showNotification (js "first") (js "success"),
       PageEvent.showNotification (js "second") (js "error"),
       PageEvent.fire (Timer.autoRemove 0),
       PageEvent.fire (Timer.finalRemove 0)]).1⟩

theorem fullMatch_none (w : JSString) : RE.none.fullMatch w = false := by
  induction w with
  | nil => rfl
  | cons c cs ih => simpa [RE.fullMatch, RE.deriv] using ih

theorem fullMatch_eps (w : JSString) : RE.eps.fullMatch w = true ↔ w = [] := by
  cases w with
  | nil => simp [RE.fullMatch, RE.nullable]
  | cons c cs => simp [RE.fullMatch, RE.deriv, fullMatch_none]

theorem fullMatch_cls (p : Nat → Bool) (w : JSString) :
    (RE.cls p).fullMatch w = true ↔ ∃ c, w = [c] ∧ p c = true := by
  cases w with
  | nil => simp [RE.fullMatch, RE.nullable]
  | cons c cs =>
    by_cases hp : p c = true
    · simp only [RE.fullMatch, RE.deriv, hp, if_true, fullMatch_eps]
      constructor
      · rintro rfl
        exact ⟨c, rfl, hp⟩
      · rintro ⟨d, hd, _⟩
        simp only [List.cons.injEq] at hd
        exact hd.2
    · simp only [RE.fullMatch, RE.deriv, hp, Bool.false_eq_true, if_false, fullMatch_none,
        false_iff]
      rintro ⟨d, hd, hpd⟩
      simp only [List.cons.injEq] at hd
      rw [← hd.1] at hpd
      exact hp hpd

theorem fullMatch_alt (r s : RE) (w : JSString) :
    (RE.alt r s).fullMatch w = (r.fullMatch w || s.fullMatch w) := by
  induction w generalizing r s with
  | nil => simp [RE.fullMatch, RE.nullable]
  | cons c cs ih => simp only [RE.fullMatch, RE.deriv, ih]

theorem fullMatch_seq (r s : RE) (w : JSString) :
    (RE.seq r s).fullMatch w = true ↔
      ∃ u v, w = u ++ v ∧ r.fullMatch u = true ∧ s.fullMatch v = true := by
  induction w generalizing r with
  | nil =>
    simp only [RE.fullMatch, RE.nullable, Bool.and_eq_true]
    constructor
    · rintro ⟨h1, h2⟩
      exact ⟨[], [], rfl, h1, h2⟩
    · rintro ⟨u, v, huv, h1, h2⟩
      have hu : u = [] := (List.append_eq_nil.mp huv.symm).1
      have hv : v = [] := (List.append_eq_nil.mp huv.symm).2
      subst hu; subst hv
      exact ⟨h1, h2⟩
  | cons c cs ih =>
    have key : (RE.seq r s).fullMatch (c :: cs) = true ↔
        ((RE.seq (r.deriv c) s).fullMatch cs = true ∨
          (r.nullable = true ∧ s.fullMatch (c :: cs) = true)) := by
      simp only [RE.fullMatch, RE.deriv]
      by_cases hn : r.nullable = true
      · simp [hn, fullMatch_alt]
      · simp [hn]
    rw [key, ih]
    constructor
    · rintro (⟨u, v, huv, h1, h2⟩ | ⟨h1, h2⟩)
      · exact ⟨c :: u, v, by simp [huv], h1, h2⟩
      · exact ⟨[], c :: cs, rfl, h1, h2⟩
    · rintro ⟨u, v, huv, h1, h2⟩
      cases u with
      | nil =>
        right
        simp only [List.nil_append] at huv
        subst huv
        exact ⟨h1, h2⟩
      | cons d u2 =>
        left
        simp only [List.cons_append, List.cons.injEq] at huv
        obtain ⟨rfl, rfl⟩ := huv
        exact ⟨u2, v, rfl, h1, h2⟩

theorem fullMatch_star_cls (p : Nat → Bool) (w : JSString) :
    (RE.star (RE.cls p)).fullMatch w = true ↔ ∀ c ∈ w, p c = true := by
  induction w with
  | nil => simp [RE.fullMatch, RE.nullable]
  | cons c cs ih =>
    have e : (RE.star (RE.cls p)).fullMatch (c :: cs) =
        (RE.seq ((RE.cls p).deriv c) (RE.star (RE.cls p))).fullMatch cs := rfl
    rw [e, fullMatch_seq]
    by_cases hp : p c = true
    · simp only [RE.deriv, hp, if_true, fullMatch_eps]
      constructor
      · rintro ⟨u, v, huv, rfl, hv⟩
        simp only [List.nil_append] at huv
        subst huv
        intro d hd
        rcases List.mem_cons.mp hd with rfl | hd
        · exact hp
        · exact ih.mp hv d hd
      · intro h
        exact ⟨[], cs, rfl, rfl, ih.mpr (fun d hd => h d (List.mem_cons_of_mem _ hd))⟩
    · simp only [RE.deriv, hp, Bool.false_eq_true, if_false, fullMatch_none]
      constructor
      · rintro ⟨u, v, _, h, _⟩
        exact absurd h (by simp)
      · intro h
        exact absurd (h c (List.mem_cons_self _ _)) hp

theorem fullMatch_plus_cls (p : Nat → Bool) (w : JSString) :
    (RE.plus (RE.cls p)).fullMatch w = true ↔ w ≠ [] ∧ ∀ c ∈ w, p c = true := by
  unfold RE.plus
  rw [fullMatch_seq]
  constructor
  · rintro ⟨u, v, rfl, hu, hv⟩
    obtain ⟨c, rfl, hc⟩ := (fullMatch_cls p u).mp hu
    refine ⟨by simp, ?_⟩
    intro d hd
    rcases List.mem_cons.mp hd with rfl | hd
    · exact hc
    · exact (fullMatch_star_cls p v).mp hv d hd
  · rintro ⟨hne, hall⟩
    obtain ⟨c, cs, rfl⟩ := List.exists_cons_of_ne_nil hne
    exact ⟨[c], cs, rfl, (fullMatch_cls p [c]).mpr ⟨c, rfl, hall c (List.mem_cons_self _ _)⟩,
      (fullMatch_star_cls p cs).mpr (fun d hd => hall d (List.mem_cons_of_mem _ hd))⟩

/-- The strings `emailRegex` matches: `A @ B . C` with `A`, `B`, `C` non-empty and free
of white space and of `@`. -/
theorem isValidEmail_iff_split (s : JSString) :
    FormManager.isValidEmail s = true ↔
      ∃ A B C : JSString, s = A ++ 0x40 :: (B ++ 0x2E :: C) ∧
        A ≠ [] ∧ B ≠ [] ∧ C ≠ [] ∧ (∀ c ∈ A, notSpaceAt c = true) ∧
        (∀ c ∈ B, notSpaceAt c = true) ∧ (∀ c ∈ C, notSpaceAt c = true) := by
  unfold FormManager.isValidEmail emailRegex
  simp only [fullMatch_seq, fullMatch_plus_cls, RE.lit, fullMatch_cls]
  constructor
  · rintro ⟨A, r1, rfl, ⟨hA, hAall⟩, at1, r2, rfl, ⟨c1, rfl, hc1⟩, B, r3, rfl, ⟨hB, hBall⟩,
      dot, C, rfl, ⟨c2, rfl, hc2⟩, hC, hCall⟩
    have e1 : c1 = 0x40 := by simpa using hc1
    have e2 : c2 = 0x2E := by simpa using hc2
    subst e1; subst e2
    exact ⟨A, B, C, by simp, hA, hB, hC, hAall, hBall, hCall⟩
  · rintro ⟨A, B, C, rfl, hA, hB, hC, hAall, hBall, hCall⟩
    exact ⟨A, 0x40 :: (B ++ 0x2E :: C), rfl, ⟨hA, hAall⟩, [0x40], B ++ 0x2E :: C, rfl,
      ⟨0x40, rfl, by simp⟩, B, 0x2E :: C, rfl, ⟨hB, hBall⟩, [0x2E], C, rfl,
      ⟨0x2E, rfl, by simp⟩, hC, hCall⟩

theorem notSpaceAt_iff (c : Nat) :
    notSpaceAt c = true ↔ isJSWhitespace c = false ∧ c ≠ 0x40 := by
  simp [notSpaceAt]

theorem localPart_append_at (A D : JSString) (hA : ∀ c ∈ A, c ≠ 0x40) :
    localPart (A ++ 0x40 :: D) = A ∧ domainPart (A ++ 0x40 :: D) = D := by
  induction A with
  | nil => simp [localPart, domainPart]
  | cons a A ih =>
    have ha : a ≠ 0x40 := hA a (List.mem_cons_self _ _)
    have ih2 := ih (fun c hc => hA c (List.mem_cons_of_mem _ hc))
    simp only [localPart, domainPart] at ih2 ⊢
    simp [List.takeWhile_cons, List.dropWhile_cons, ha, ih2.1, ih2.2]

theorem split_at_first_at (s : JSString) (h : 0x40 ∈ s) :
    s = localPart s ++ 0x40 :: domainPart s ∧ ∀ c ∈ localPart s, c ≠ 0x40 := by
  induction s with
  | nil => simp at h
  | cons a s ih =>
    by_cases ha : a = 0x40
    · subst ha
      simp [localPart, domainPart]
    · have hs : 0x40 ∈ s := by
        rcases List.mem_cons.mp h with h | h
        · exact absurd h.symm ha
        · exact h
      obtain ⟨h1, h2⟩ := ih hs
      simp only [localPart, domainPart] at h1 h2 ⊢
      simp only [List.takeWhile_cons, List.dropWhile_cons, bne_iff_ne, ne_eq, ha,
        not_false_eq_true, decide_True, if_true, List.cons_append, List.cons.injEq, true_and,
        List.mem_cons, forall_eq_or_imp]
      exact ⟨h1, h2⟩

/-- C11: `isValidEmail(s)` is true exactly when `s` contains no white-space
character, contains exactly one `@`, has a non-empty part before the `@`, and the
part after the `@` contains a `.` that is neither its first nor its last character.
`"a@b.com"` is accepted and `"bad"` is rejected. -/
theorem isValidEmail_iff_shape (s : JSString) :
    (FormManager.isValidEmail s = true ↔
      ((∀ c ∈ s, isJSWhitespace c = false) ∧ s.count 0x40 = 1 ∧ localPart s ≠ [] ∧
        ∃ i, 0 < i ∧ i + 1 < (domainPart s).length ∧ (domainPart s)[i]? = some 0x2E)) ∧
    FormManager.isValidEmail (js "a@b.com") = true ∧
    FormManager.isValidEmail (js "bad") = false := by
  refine ⟨?_, by decide, by decide⟩
  rw [isValidEmail_iff_split]
  constructor
  · rintro ⟨A, B, C, rfl, hA, hB, hC, hAall, hBall, hCall⟩
    have hA2 : ∀ c ∈ A, c ≠ 0x40 := fun c hc => ((notSpaceAt_iff c).mp (hAall c hc)).2
    have hB2 : ∀ c ∈ B, c ≠ 0x40 := fun c hc => ((notSpaceAt_iff c).mp (hBall c hc)).2
    have hC2 : ∀ c ∈ C, c ≠ 0x40 := fun c hc => ((notSpaceAt_iff c).mp (hCall c hc)).2
    obtain ⟨hl, hd⟩ := localPart_append_at A (B ++ 0x2E :: C) hA2
    refine ⟨?_, ?_, by rw [hl]; exact hA, ?_⟩
    · intro c hc
      simp only [List.mem_append, List.mem_cons] at hc
      rcases hc with hc | rfl | hc | rfl | hc
      · exact ((notSpaceAt_iff c).mp (hAall c hc)).1
      · decide
      · exact ((notSpaceAt_iff c).mp (hBall c hc)).1
      · decide
      · exact ((notSpaceAt_iff c).mp (hCall c hc)).1
    · have cA : A.count 0x40 = 0 := List.count_eq_zero.mpr (fun h => hA2 _ h rfl)
      have cB : B.count 0x40 = 0 := List.count_eq_zero.mpr (fun h => hB2 _ h rfl)
      have cC : C.count 0x40 = 0 := List.count_eq_zero.mpr (fun h => hC2 _ h rfl)
      simp [List.count_append, List.count_cons, cA, cB, cC]
    · rw [hd]
      refine ⟨B.length, List.length_pos.mpr hB, ?_, ?_⟩
      · have := List.length_pos.mpr hC
        simp only [List.length_append, List.length_cons]
        omega
      · rw [List.getElem?_append_right (le_refl _)]
        simp
  · rintro ⟨hws, hcount, hlocal, i, hi0, hi1, hdot⟩
    have hmem : 0x40 ∈ s := List.count_pos_iff.mp (by omega)
    obtain ⟨hsplit, hA2⟩ := split_at_first_at s hmem
    have hD0 : (domainPart s).count 0x40 = 0 := by
      have cA : (localPart s).count 0x40 = 0 :=
        List.count_eq_zero.mpr (fun h => hA2 _ h rfl)
      have hc := hcount
      rw [hsplit, List.count_append, List.count_cons, cA] at hc
      simp only [beq_self_eq_true, if_true] at hc
      omega
    have hD2 : ∀ c ∈ domainPart s, c ≠ 0x40 := by
      intro c hc h
      subst h
      exact (List.count_eq_zero.mp hD0) hc
    have hDs : ∀ c ∈ domainPart s, c ∈ s := by
      intro c hc
      rw [hsplit]
      simp [hc]
    have hAs : ∀ c ∈ localPart s, c ∈ s := by
      intro c hc
      rw [hsplit]
      simp [hc]
    have hlt : i < (domainPart s).length := by omega
    have hget : (domainPart s)[i] = 0x2E := by
      have := List.getElem?_eq_getElem hlt
      rw [hdot] at this
      exact (Option.some.inj this).symm
    have hD : domainPart s =
        (domainPart s).take i ++ 0x2E :: (domainPart s).drop (i + 1) := by
      conv_lhs => rw [← List.take_append_drop i (domainPart s)]
      rw [List.drop_eq_getElem_cons hlt, hget]
    refine ⟨localPart s, (domainPart s).take i, (domainPart s).drop (i + 1), ?_, hlocal, ?_, ?_,
      ?_, ?_, ?_⟩
    · rw [← hD]
      exact hsplit
    · intro h
      have := congrArg List.length h
      simp only [List.length_take, List.length_nil] at this
      omega
    · intro h
      have := congrArg List.length h
      simp only [List.length_drop, List.length_nil] at this
      omega
    · intro c hc
      exact (notSpaceAt_iff c).mpr ⟨hws c (hAs c hc), hA2 c hc⟩
    · intro c hc
      have hcD := List.mem_of_mem_take hc
      exact (notSpaceAt_iff c).mpr ⟨hws c (hDs c hcD), hD2 c hcD⟩
    · intro c hc
      have hcD := List.mem_of_mem_drop hc
      exact (notSpaceAt_iff c).mpr ⟨hws c (hDs c hcD), hD2 c hcD⟩

theorem trim_of_no_whitespace (s : JSString) (h : ∀ c ∈ s, isJSWhitespace c = false) :
    trim s = s := by
  have drop_self : ∀ l : JSString, (∀ c ∈ l, isJSWhitespace c = false) →
      l.dropWhile isJSWhitespace = l := by
    intro l hl
    cases l with
    | nil => rfl
    | cons a l => simp [List.dropWhile_cons, hl a (List.mem_cons_self _ _)]
  unfold trim
  rw [drop_self s h, drop_self s.reverse (fun c hc => h c (List.mem_reverse.mp hc)),
    List.reverse_reverse]

/-- Submit-time validation implies blur-time validation on each field. -/
theorem validateForm_true_imp_validateField (p : Page)
    (h : (FormManager.validateForm p.values p).1 = true) (f : FormField) :
    (FormManager.validateField f p).1 = true := by
  rw [validateForm_eq] at h
  simp only [Bool.and_eq_true, fieldRule, decide_eq_true_eq] at h
  obtain ⟨⟨⟨h1, h2⟩, h3⟩, h4⟩ := h
  have hws : ∀ c ∈ p.values.email, isJSWhitespace c = false := by
    obtain ⟨A, B, C, hs, _, _, _, hA, hB, hC⟩ := (isValidEmail_iff_split p.values.email).mp h2
    intro c hc
    rw [hs] at hc
    simp only [List.mem_append, List.mem_cons] at hc
    rcases hc with hc | rfl | hc | rfl | hc
    · exact ((notSpaceAt_iff c).mp (hA c hc)).1
    · decide
    · exact ((notSpaceAt_iff c).mp (hB c hc)).1
    · decide
    · exact ((notSpaceAt_iff c).mp (hC c hc)).1
  have ht := trim_of_no_whitespace p.values.email hws
  cases f <;> simp only [FormManager.validateField, FormData.get]
  · rw [if_neg (by omega)]
  · simp [ht, h2]
  · rw [if_neg (by omega)]
  · rw [if_neg (by omega)]

/-- C12 (evaluation at the failing input): with the field values
`{name:"Aya H", email:"a@b.com ", subject:"Hello there", message:"This is a
sufficiently long message."}` (a space after the address) `validateField` returns
true on each of the four fields, because it trims the value before testing it, while
`validateForm` returns false, because it tests the email untrimmed, and shows the
email error. The same holds with a no-break space (U+00A0) after the address. -/
theorem validateForm_rejects_email_validateField_accepts :
    (∀ f : FormField, (FormManager.validateField f (Page.fresh
      ⟨js "Aya H", js "a@b.com ", js "Hello there",
        js "This is a sufficiently long message."⟩)).1 = true) ∧
    (FormManager.validateForm
      ⟨js "Aya H", js "a@b.com ", js "Hello there", js "This is a sufficiently long message."⟩
      (Page.fresh ⟨js "Aya H", js "a@b.com ", js "Hello there",
        js "This is a sufficiently long message."⟩)).1 = false ∧
    (FormManager.validateForm
      ⟨js "Aya H", js "a@b.com ", js "Hello there", js "This is a sufficiently long message."⟩
      (Page.fresh ⟨js "Aya H", js "a@b.com ", js "Hello there",
        js "This is a sufficiently long message."⟩)).2.trace =
      [Effect.fieldError .email (js "Please enter a valid email address")] ∧
    (∀ f : FormField, (FormManager.validateField f (Page.fresh
      ⟨js "Aya H", js "a@b.com" ++ [0xA0], js "Hello there",
        js "This is a sufficiently long message."⟩)).1 = true) ∧
    (FormManager.validateForm
      ⟨js "Aya H", js "a@b.com" ++ [0xA0], js "Hello there",
        js "This is a sufficiently long message."⟩
      (Page.fresh ⟨js "Aya H", js "a@b.com" ++ [0xA0], js "Hello there",
        js "This is a sufficiently long message."⟩)).1 = false := by
  refine ⟨?_, by decide, by decide, ?_, by decide⟩
  · intro f
    cases f <;> decide
  · intro f
    cases f <;> decide

/-- The state after `n` calls of `toggleMobileMenu`. -/
theorem toggle_iterate (n : Nat) (s : MenuPage) :
    (NavigationManager.toggleMobileMenu^[n] s).hamburgerClickListeners
        = s.hamburgerClickListeners ∧
    (NavigationManager.toggleMobileMenu^[n] s).toggleCalls = s.toggleCalls + n ∧
    (NavigationManager.toggleMobileMenu^[n] s).navMenuActive
        = (if n % 2 = 0 then s.navMenuActive else !s.navMenuActive) ∧
    (NavigationManager.toggleMobileMenu^[n] s).hamburgerActive
        = (if n % 2 = 0 then s.hamburgerActive else !s.hamburgerActive) ∧
    (0 < n → (NavigationManager.toggleMobileMenu^[n] s).bodyOverflow
        = (if (NavigationManager.toggleMobileMenu^[n] s).navMenuActive then js "hidden"
            else [])) := by
  induction n with
  | zero => simp
  | succ n ih =>
    obtain ⟨h1, h2, h3, h4, _⟩ := ih
    rw [Function.iterate_succ_apply']
    generalize NavigationManager.toggleMobileMenu^[n] s = u at h1 h2 h3 h4
    refine ⟨?_, ?_, ?_, ?_, ?_⟩
    · simpa [NavigationManager.toggleMobileMenu] using h1
    · simp only [NavigationManager.toggleMobileMenu, h2]; omega
    · simp only [NavigationManager.toggleMobileMenu, h3]
      rcases Nat.mod_two_eq_zero_or_one n with hn | hn
      · have : (n + 1) % 2 ≠ 0 := by omega
        simp [hn, this]
      · have : (n + 1) % 2 = 0 := by omega
        simp [hn, this]
    · simp only [NavigationManager.toggleMobileMenu, h4]
      rcases Nat.mod_two_eq_zero_or_one n with hn | hn
      · have : (n + 1) % 2 ≠ 0 := by omega
        simp [hn, this]
      · have : (n + 1) % 2 = 0 := by omega
        simp [hn, this]
    · intro _
      simp [NavigationManager.toggleMobileMenu]

/-- The state after `n` calls of `closeMobileMenu`. -/
theorem close_iterate (n : Nat) (s : MenuPage) :
    (NavigationManager.closeMobileMenu^[n] s).hamburgerClickListeners
        = s.hamburgerClickListeners ∧
    ((s.hamburgerActive = false ∧ s.navMenuActive = false ∧ s.bodyOverflow = []) →
      ((NavigationManager.closeMobileMenu^[n] s).hamburgerActive = false ∧
       (NavigationManager.closeMobileMenu^[n] s).navMenuActive = false ∧
       (NavigationManager.closeMobileMenu^[n] s).bodyOverflow = [])) := by
  induction n with
  | zero => simp
  | succ n ih =>
    rw [Function.iterate_succ_apply']
    generalize NavigationManager.closeMobileMenu^[n] s = u at ih
    exact ⟨by simpa [NavigationManager.closeMobileMenu] using ih.1,
      fun _ => by simp [NavigationManager.closeMobileMenu]⟩

theorem escapePresses_append (events : List MenuEvent) (e : MenuEvent) :
    escapePresses (events ++ [e]) =
      escapePresses events + (if e = MenuEvent.keydown (js "Escape") then 1 else 0) := by
  unfold escapePresses
  rw [List.countP_append]
  by_cases h : e = MenuEvent.keydown (js "Escape") <;> simp [List.countP_cons, h]

/-- The invariant of the menu over every sequence of events after `DOMContentLoaded`:
the hamburger carries one click listener per Escape press plus one, and after an odd
number of Escape presses the menu is closed and the scroll lock is off. -/
theorem menu_run_inv (markup : MenuPage) (h0 : markup.hamburgerClickListeners = 0)
    (events : List MenuEvent) :
    ((domContentLoaded markup).run events).hamburgerClickListeners
        = escapePresses events + 1 ∧
    (escapePresses events % 2 = 1 →
      (((domContentLoaded markup).run events).hamburgerActive = false ∧
       ((domContentLoaded markup).run events).navMenuActive = false ∧
       ((domContentLoaded markup).run events).bodyOverflow = [])) := by
  induction events using List.reverseRecOn with
  | nil =>
    simp [MenuPage.run, escapePresses, domContentLoaded, NavigationManager.constructor,
      NavigationManager.init, LoadingManager.init, h0]
  | append_singleton events e ih =>
    obtain ⟨hl, hc⟩ := ih
    rw [escapePresses_append]
    have hrun : (domContentLoaded markup).run (events ++ [e])
        = ((domContentLoaded markup).run events).step e := by
      simp [MenuPage.run, List.foldl_append]
    rw [hrun]
    generalize (domContentLoaded markup).run events = s at hl hc
    cases e with
    | keydown key =>
      by_cases hk : key = js "Escape"
      · subst hk
        simp only [MenuPage.step, keydownHandler, if_true, NavigationManager.constructor,
          NavigationManager.init, NavigationManager.closeMobileMenu, hl]
        simp
      · have hne : ¬ (MenuEvent.keydown key = MenuEvent.keydown (js "Escape")) := by
          intro h
          exact hk (MenuEvent.keydown.inj h)
        simp only [MenuPage.step, keydownHandler, hk, if_false, hne, Nat.add_zero]
        exact ⟨hl, hc⟩
    | hamburgerClick =>
      have ht := toggle_iterate s.hamburgerClickListeners s
      simp only [MenuPage.step, hamburgerClick, reduceCtorEq, if_false, Nat.add_zero]
      refine ⟨by rw [ht.1, hl], ?_⟩
      intro hodd
      obtain ⟨ha, hm, ho⟩ := hc hodd
      have hev : s.hamburgerClickListeners % 2 = 0 := by omega
      have hpos : 0 < s.hamburgerClickListeners := by omega
      have hnav := ht.2.2.1
      rw [if_pos hev, hm] at hnav
      have hham := ht.2.2.2.1
      rw [if_pos hev, ha] at hham
      have hov := ht.2.2.2.2 hpos
      rw [hnav] at hov
      exact ⟨hham, hnav, by simpa using hov⟩
    | navLinkClick =>
      have hcl := close_iterate s.navLinkClickListeners s
      simp only [MenuPage.step, navLinkClick, reduceCtorEq, if_false, Nat.add_zero]
      exact ⟨by rw [hcl.1, hl], fun hodd => hcl.2 (hc hodd)⟩
    | loadTimeout =>
      simp only [reduceCtorEq, if_false, Nat.add_zero]
      exact ⟨hl, fun hodd => ⟨(hc hodd).1, (hc hodd).2.1, rfl⟩⟩

/-- C13 (amended): after `DOMContentLoaded` and any sequence of events containing `k`
Escape presses, the hamburger carries `k + 1` click listeners, so one hamburger
click calls `toggleMobileMenu` exactly `k + 1` times; the click changes the open or
closed state of the menu (and of the hamburger icon) exactly when `k` is even; after
the click the scroll lock is on exactly when the menu is open; when `k` is odd the
click leaves menu, icon and scroll lock as they were; when `k` is even the scroll
lock changes too, provided it agreed with the menu state before the click. -/
theorem hamburgerClick_after_escapes (markup : MenuPage)
    (h0 : markup.hamburgerClickListeners = 0) (events : List MenuEvent) (s : MenuPage)
    (hs : s = (domContentLoaded markup).run events) :
    s.hamburgerClickListeners = escapePresses events + 1 ∧
    (hamburgerClick s).toggleCalls = s.toggleCalls + (escapePresses events + 1) ∧
    ((hamburgerClick s).navMenuActive ≠ s.navMenuActive ↔ escapePresses events % 2 = 0) ∧
    ((hamburgerClick s).hamburgerActive ≠ s.hamburgerActive ↔
      escapePresses events % 2 = 0) ∧
    (hamburgerClick s).bodyOverflow =
      (if (hamburgerClick s).navMenuActive then js "hidden" else []) ∧
    (escapePresses events % 2 = 1 →
      ((hamburgerClick s).navMenuActive = s.navMenuActive ∧
       (hamburgerClick s).hamburgerActive = s.hamburgerActive ∧
       (hamburgerClick s).bodyOverflow = s.bodyOverflow)) ∧
    (escapePresses events % 2 = 0 →
      s.bodyOverflow = (if s.navMenuActive then js "hidden" else []) →
      (hamburgerClick s).bodyOverflow ≠ s.bodyOverflow) := by
  obtain ⟨hl, hc⟩ := menu_run_inv markup h0 events
  rw [← hs] at hl hc
  obtain ⟨_, ht2, ht3, ht4, ht5⟩ := toggle_iterate s.hamburgerClickListeners s
  have hpos : 0 < s.hamburgerClickListeners := by omega
  have hov := ht5 hpos
  unfold hamburgerClick
  rw [hl] at ht2 ht3 ht4 hov ⊢
  have hne : js "hidden" ≠ ([] : JSString) := by decide
  refine ⟨rfl, ht2, ?_, ?_, hov, ?_, ?_⟩
  · rw [ht3]
    rcases Nat.mod_two_eq_zero_or_one (escapePresses events) with hk | hk
    · have : (escapePresses events + 1) % 2 ≠ 0 := by omega
      simp [hk, this]
    · have : (escapePresses events + 1) % 2 = 0 := by omega
      simp [hk, this]
  · rw [ht4]
    rcases Nat.mod_two_eq_zero_or_one (escapePresses events) with hk | hk
    · have : (escapePresses events + 1) % 2 ≠ 0 := by omega
      simp [hk, this]
    · have : (escapePresses events + 1) % 2 = 0 := by omega
      simp [hk, this]
  · intro hk
    have hev : (escapePresses events + 1) % 2 = 0 := by omega
    obtain ⟨_, hm, ho⟩ := hc hk
    rw [if_pos hev] at ht3 ht4
    refine ⟨ht3, ht4, ?_⟩
    rw [hov, ht3, hm, ho]
    rfl
  · intro hk hsync
    have hodd : (escapePresses events + 1) % 2 ≠ 0 := by omega
    rw [if_neg hodd] at ht3
    rw [hov, ht3, hsync]
    cases s.navMenuActive
    · simpa using hne
    · simpa using hne.symm

/-- Witness of C13 (amended): plain markup, two Escape presses with a hamburger click
in between; the hamburger then carries three click listeners and one click calls
`toggleMobileMenu` three times. -/
theorem hamburgerClick_after_escapes_witness :
    ((domContentLoaded ⟨false, false, [], 0, 0, 0, 0⟩).run
      [MenuEvent.keydown (js "Escape"), MenuEvent.hamburgerClick,
       MenuEvent.keydown (js "Escape")]).hamburgerClickListeners = 2 + 1 ∧
    (hamburgerClick ((domContentLoaded ⟨false, false, [], 0, 0, 0, 0⟩).run
      [MenuEvent.keydown (js "Escape"), MenuEvent.hamburgerClick,
       MenuEvent.keydown (js "Escape")])).toggleCalls =
      ((domContentLoaded ⟨false, false, [], 0, 0, 0, 0⟩).run
        [MenuEvent.keydown (js "Escape"), MenuEvent.hamburgerClick,
         MenuEvent.keydown (js "Escape")]).toggleCalls + (2 + 1) :=
  have h := hamburgerClick_after_escapes ⟨false, false, [], 0, 0, 0, 0⟩ rfl
    [MenuEvent.keydown (js "Escape"), MenuEvent.hamburgerClick,
     MenuEvent.keydown (js "Escape")] _ rfl
  ⟨h.1, h.2.1⟩

/-- Counterexample to C13 as stated: right after `DOMContentLoaded` (no Escape press,
`k = 0`, even) the body still carries the scroll lock of the loading screen; one
hamburger click calls `toggleMobileMenu` once and opens the menu, but the scroll
lock is `hidden` before and after, so the click does not change it. -/
theorem hamburgerClick_during_loading_keeps_lock :
    escapePresses [] % 2 = 0 ∧
    (domContentLoaded ⟨false, false, [], 0, 0, 0, 0⟩).navMenuActive = false ∧
    (domContentLoaded ⟨false, false, [], 0, 0, 0, 0⟩).bodyOverflow = js "hidden" ∧
    (hamburgerClick (domContentLoaded ⟨false, false, [], 0, 0, 0, 0⟩)).toggleCalls = 1 ∧
    (hamburgerClick (domContentLoaded ⟨false, false, [], 0, 0, 0, 0⟩)).navMenuActive = true ∧
    (hamburgerClick (domContentLoaded ⟨false, false, [], 0, 0, 0, 0⟩)).bodyOverflow
      = (domContentLoaded ⟨false, false, [], 0, 0, 0, 0⟩).bodyOverflow := by
  decide
